import Mathlib

/-!
Verification development for the contact-mcp repository: a shallow embedding
of the guarded multi-dialect query-construction core (allowlist guard, filter
DSL translators, dialect query assemblers, archive table resolver,
database-type router, and the campaign orchestration workflow), together with
theorems settling the specification claims against it.

All definitions are translated from the repository sources
(`contact_mcp/guardrails.py`, `query.py`, `transaction.py`, `config.py`,
`tools.py`); the query builders from the absent `campaign.py` module are
modelled from the specification and marked as such.
-/

namespace ContactMcp

/-! ### Python string primitives

Kernel-reducible models of the Python string operations the sources use
(`.lower()`, `.upper()`, `.strip()`, `in`, `.split()`, `.split(sep)`). -/

/-- Python `s.lower()` (ASCII case mapping, as used on identifiers here). -/
def pyLower (s : String) : String := String.mk (s.data.map Char.toLower)

/-- Python `s.upper()`. -/
def pyUpper (s : String) : String := String.mk (s.data.map Char.toUpper)

/-- Python `s.strip()`: drop leading and trailing whitespace. -/
def pyStrip (s : String) : String :=
  String.mk (((s.data.dropWhile Char.isWhitespace).reverse.dropWhile
    Char.isWhitespace).reverse)

/-- Helper for `containsSub` on character lists. -/
def containsSubAux (needle : List Char) : List Char → Bool
  | [] => needle.isEmpty
  | c :: t => needle.isPrefixOf (c :: t) || containsSubAux needle t

/-- Python `needle in hay` for strings. -/
def containsSub (hay needle : String) : Bool :=
  containsSubAux needle.data hay.data

/-- Helper for `pySplitChar`. -/
def pySplitCharAux (sep : Char) : List Char → List Char → List (List Char)
  | acc, [] => [acc.reverse]
  | acc, c :: t =>
      if c = sep then acc.reverse :: pySplitCharAux sep [] t
      else pySplitCharAux sep (c :: acc) t

/-- Python `s.split(sep)` for a one-character separator. -/
def pySplitChar (sep : Char) (s : String) : List String :=
  (pySplitCharAux sep [] s.data).map String.mk

/-- Helper for `pySplitWs`: split on whitespace runs. -/
def pySplitWsAux : List Char → List Char → List (List Char)
  | acc, [] => if acc.isEmpty then [] else [acc.reverse]
  | acc, c :: t =>
      if c.isWhitespace then
        if acc.isEmpty then pySplitWsAux [] t
        else acc.reverse :: pySplitWsAux [] t
      else pySplitWsAux (c :: acc) t

/-- Python `s.split()` with no argument: split on whitespace, no empty parts. -/
def pySplitWs (s : String) : List String :=
  (pySplitWsAux [] s.data).map String.mk

/-- Python `s.lstrip(chars)`: drop leading characters that occur in `chars`. -/
def pyLstrip (chars : String) (s : String) : String :=
  String.mk (s.data.dropWhile (fun c => chars.data.contains c))

/-! ### Python value model

The dynamic values the filter DSL manipulates: integers, strings, lists
(also standing for tuples), string-keyed mappings, dates, datetimes and
`None`. -/

/-- A Python value as seen by the filter translators. -/
inductive PyVal where
  | pint (n : Int)
  | pstr (s : String)
  | plist (xs : List PyVal)
  | pmap (kvs : List (String × PyVal))
  | pdate (y m d : Int)
  | pdatetime (y m d hh mi ss : Int)
  | pnone

/-- Python truthiness (`bool(v)`), restricted to the shapes above. -/
def pyTruthy : PyVal → Bool
  | .pint n => n != 0
  | .pstr s => s != ""
  | .plist xs => !xs.isEmpty
  | .pmap kvs => !kvs.isEmpty
  | .pdate _ _ _ => true
  | .pdatetime _ _ _ _ _ _ => true
  | .pnone => false

mutual
/-- Python `repr(v)` (a faithful rendering for the shapes that matter;
only ever consumed by operator-name sniffing, where any non-scalar repr
lands in the unsupported-operator branch). -/
def pyRepr : PyVal → String
  | .pint n => toString n
  | .pstr s => "'" ++ s ++ "'"
  | .plist xs => "[" ++ pyReprList xs ++ "]"
  | .pmap kvs => "\x7b" ++ pyReprMap kvs ++ "\x7d"
  | .pdate y m d => "datetime.date(" ++ toString y ++ ", " ++ toString m ++
      ", " ++ toString d ++ ")"
  | .pdatetime y m d hh mi ss => "datetime.datetime(" ++ toString y ++ ", " ++
      toString m ++ ", " ++ toString d ++ ", " ++ toString hh ++ ", " ++
      toString mi ++ ", " ++ toString ss ++ ")"
  | .pnone => "None"

/-- Comma-join the reprs of list elements. -/
def pyReprList : List PyVal → String
  | [] => ""
  | [x] => pyRepr x
  | x :: t => pyRepr x ++ ", " ++ pyReprList t

/-- Comma-join the reprs of mapping entries. -/
def pyReprMap : List (String × PyVal) → String
  | [] => ""
  | [(k, v)] => "'" ++ k ++ "': " ++ pyRepr v
  | (k, v) :: t => "'" ++ k ++ "': " ++ pyRepr v ++ ", " ++ pyReprMap t
end

/-- Python `str(v)`. -/
def pyStr : PyVal → String
  | .pstr s => s
  | v => pyRepr v

/-- First value bound to `key` in a mapping (Python dict keys are unique,
so this is plain dict lookup). -/
def pyGet (kvs : List (String × PyVal)) (key : String) : Option PyVal :=
  (kvs.find? (fun kv => kv.1 = key)).map Prod.snd

/-- Python `kvs[key] = v`: replace the value at an existing key in place,
or append a new entry. -/
def pySet (kvs : List (String × PyVal)) (key : String) (v : PyVal) :
    List (String × PyVal) :=
  if (kvs.find? (fun kv => kv.1 = key)).isSome then
    kvs.map (fun kv => if kv.1 = key then (kv.1, v) else kv)
  else kvs ++ [(key, v)]

/-- Python `key in kvs` for a dict. -/
def pyHasKey (kvs : List (String × PyVal)) (key : String) : Bool :=
  (kvs.find? (fun kv => kv.1 = key)).isSome

/-! ### Date parsing (`transaction._convert_to_date`)

`_convert_to_date` opportunistically parses string operands against the
formats `%Y-%m-%d`, `%Y-%m-%d %H:%M:%S`, `%d-%b-%Y`, `%d-%b-%y`, first
match wins, non-matching strings pass through unchanged. -/

/-- Parse an all-digit character list whose length lies in `[lo, hi]`
(CPython's strptime matches `%Y` as exactly 4 digits, `%y` as exactly 2,
and `%m`/`%d`/`%H`/`%M`/`%S` as 1–2 digits). -/
def parseDigits (lo hi : Nat) (cs : List Char) : Option Nat :=
  if cs.length < lo || hi < cs.length || !(cs.all Char.isDigit) then none
  else some (cs.foldl (fun acc c => acc * 10 + (c.toNat - 48)) 0)

/-- Leap-year test (proleptic Gregorian, as Python's `datetime`). -/
def isLeapYear (y : Nat) : Bool :=
  y % 4 = 0 && (y % 100 != 0 || y % 400 = 0)

/-- Days in a month, for date validation. -/
def daysInMonth (y m : Nat) : Nat :=
  if m = 2 then (if isLeapYear y then 29 else 28)
  else if m = 4 || m = 6 || m = 9 || m = 11 then 30
  else 31

/-- A year/month/day triple is a valid `datetime.date`. -/
def validYmd (y m d : Nat) : Bool :=
  1 ≤ y && y ≤ 9999 && 1 ≤ m && m ≤ 12 && 1 ≤ d && d ≤ daysInMonth y m

/-- Month-abbreviation lookup for `%b` (case-insensitive). -/
def monthAbbrev (s : String) : Option Nat :=
  match pyLower s with
  | "jan" => some 1 | "feb" => some 2 | "mar" => some 3 | "apr" => some 4
  | "may" => some 5 | "jun" => some 6 | "jul" => some 7 | "aug" => some 8
  | "sep" => some 9 | "oct" => some 10 | "nov" => some 11 | "dec" => some 12
  | _ => none

/-- Parse `%Y-%m-%d` into a valid (year, month, day). -/
def parseYmd (s : String) : Option (Nat × Nat × Nat) :=
  match (pySplitChar '-' s).map String.data with
  | [ys, ms, ds] =>
      match parseDigits 4 4 ys, parseDigits 1 2 ms, parseDigits 1 2 ds with
      | some y, some m, some d => if validYmd y m d then some (y, m, d) else none
      | _, _, _ => none
  | _ => none

/-- Parse `%H:%M:%S` into a valid (hour, minute, second). -/
def parseHms (s : String) : Option (Nat × Nat × Nat) :=
  match (pySplitChar ':' s).map String.data with
  | [hs, ms, ss] =>
      match parseDigits 1 2 hs, parseDigits 1 2 ms, parseDigits 1 2 ss with
      | some h, some mi, some sec =>
          if h ≤ 23 && mi ≤ 59 && sec ≤ 59 then some (h, mi, sec) else none
      | _, _, _ => none
  | _ => none

/-- Parse `%d-%b-%Y` / `%d-%b-%y` into a valid (year, month, day);
`twoDigitYear` selects the `%y` pivot mapping 0–68 to 2000+ and 69–99
to 1900+. -/
def parseDbY (twoDigitYear : Bool) (s : String) : Option (Nat × Nat × Nat) :=
  match pySplitChar '-' s with
  | [ds, bs, ys] =>
      match parseDigits 1 2 ds.data, monthAbbrev bs,
          (if twoDigitYear then parseDigits 2 2 ys.data
            else parseDigits 4 4 ys.data) with
      | some d, some m, some yRaw =>
          let y := if twoDigitYear then
            (if yRaw ≤ 68 then 2000 + yRaw else 1900 + yRaw) else yRaw
          if validYmd y m d then some (y, m, d) else none
      | _, _, _ => none
  | _ => none

/-- `transaction._convert_to_date`: convert string date values to
date/datetime values for Oracle binding; the four formats are tried in
order and a non-matching value passes through unchanged. -/
def convertToDate (value : PyVal) : PyVal :=
  match value with
  | .pdate y m d => .pdate y m d
  | .pdatetime y m d hh mi ss => .pdatetime y m d hh mi ss
  | .pstr s =>
      match parseYmd s with
      | some (y, m, d) => .pdate y m d
      | none =>
        match pySplitChar ' ' s with
        | [datePart, timePart] =>
            match parseYmd datePart, parseHms timePart with
            | some (y, m, d), some (hh, mi, sec) =>
                .pdatetime y m d hh mi sec
            | _, _ => tryDbY s
        | _ => tryDbY s
  | v => v
where
  /-- Fall back to the `%d-%b-%Y` then `%d-%b-%y` formats. -/
  tryDbY (s : String) : PyVal :=
    match parseDbY false s with
    | some (y, m, d) => .pdate y m d
    | none =>
      match parseDbY true s with
      | some (y, m, d) => .pdate y m d
      | none => .pstr s

/-! ### Sorting helper (Python `sorted` on strings) -/

/-- Lexicographic comparison on character lists by code point. -/
def strLeAux : List Char → List Char → Bool
  | [], _ => true
  | _ :: _, [] => false
  | a :: as, b :: bs => if a = b then strLeAux as bs else a.toNat < b.toNat

/-- Python string `<=` (code-point lexicographic). -/
def strLe (a b : String) : Bool := strLeAux a.data b.data

/-- Insert into a sorted list. -/
def insertSorted (x : String) : List String → List String
  | [] => [x]
  | y :: t => if strLe x y then x :: y :: t else y :: insertSorted x t

/-- Python `sorted` for lists of strings. -/
def sortStr : List String → List String
  | [] => []
  | x :: t => insertSorted x (sortStr t)

/-- Python `repr` of a list of strings, as interpolated into error
messages like `f"Invalid columns for {table}: {invalid}"`. -/
def pyReprStrList (xs : List String) : String :=
  "[" ++ String.intercalate ", " (xs.map (fun s => "'" ++ s ++ "'")) ++ "]"

/-! ### Allowlist guard (`contact_mcp/guardrails.py`) -/

/-- `QueryLimits.MAX_ROWS`. -/
def MAX_ROWS : Int := 10000

/-- `QueryLimits.DEFAULT_LIMIT`. -/
def DEFAULT_LIMIT : Int := 100

/-- `QueryLimits.MAX_OFFSET`. -/
def MAX_OFFSET : Int := 100000

/-- `guardrails.REDACTED_COLUMNS`: columns never returned in results. -/
def REDACTED_COLUMNS : List String :=
  ["ssn", "dob", "password", "password_hash", "api_key", "secret", "token"]

/-- `guardrails.CAMPAIGN_REQUIRED_COLUMNS`. -/
def CAMPAIGN_REQUIRED_COLUMNS : List String := ["client_id"]

/-- `guardrails.CAMPAIGN_INSERT_COLUMNS`. -/
def CAMPAIGN_INSERT_COLUMNS : List String :=
  ["client_id", "filename", "start_time", "end_time", "leave_messages",
   "operator_phone", "callback_phone", "caller_id", "voice_id", "b_active",
   "skill_id", "dialing_strategy_id", "am_option", "campaign_type_id",
   "contact_source", "email_from", "campaign_subtype"]

/-- `guardrails.validate_limit`: `None` defaults to `DEFAULT_LIMIT`,
non-positive values raise `GuardrailError`, and valid values are capped
at `MAX_ROWS`. -/
def validate_limit (limit : Option Int) : Except String Int :=
  match limit with
  | none => .ok DEFAULT_LIMIT
  | some n =>
      if n < 1 then .error "Limit must be a positive integer"
      else .ok (min n MAX_ROWS)

/-- `guardrails.validate_offset`. -/
def validate_offset (offset : Option Int) : Except String Int :=
  match offset with
  | none => .ok 0
  | some n =>
      if n < 0 then .error "Offset must be a non-negative integer"
      else if n > MAX_OFFSET then
        .error ("Offset exceeds maximum allowed value of " ++ toString MAX_OFFSET)
      else .ok n

/-- A result row: an ordered mapping from column names to values. -/
abbrev Row := List (String × PyVal)

/-- `guardrails.redact_row`: replace the value of every key whose lowercase
form is in `REDACTED_COLUMNS` with the redaction sentinel. -/
def redact_row (row : Row) : Row :=
  row.map (fun kv =>
    (kv.1, if REDACTED_COLUMNS.contains (pyLower kv.1) then
      PyVal.pstr "***REDACTED***" else kv.2))

/-- `guardrails.redact_results`: redact every row. -/
def redact_results (rows : List Row) : List Row :=
  rows.map redact_row

/-- Does a `PyVal` equal (in Python `==` terms) the given string? -/
def pyEqStr (v : PyVal) (s : String) : Bool :=
  match v with
  | .pstr t => t = s
  | _ => false

/-- `guardrails.validate_campaign_insert`: required columns present, all
provided columns within the allowed insert set, `client_id` a positive
integer, `am_option`/`contact_source` in their enumerations. -/
def validate_campaign_insert (data : List (String × PyVal)) :
    Except String Unit :=
  if data.isEmpty then
    .error "Campaign data must be a non-empty dictionary"
  else
    let keys := data.map Prod.fst
    let missing := CAMPAIGN_REQUIRED_COLUMNS.filter (fun c => !keys.contains c)
    if !missing.isEmpty then
      .error ("Missing required columns for campaign: " ++
        pyReprStrList (sortStr missing))
    else
      let provided := keys.map pyLower
      let disallowed :=
        (provided.filter (fun c => !CAMPAIGN_INSERT_COLUMNS.contains c)).dedup
      if !disallowed.isEmpty then
        .error ("Columns not allowed for campaign insert: " ++
          pyReprStrList (sortStr disallowed) ++ ". Allowed columns: " ++
          pyReprStrList (sortStr CAMPAIGN_INSERT_COLUMNS))
      else
        let clientOk := match pyGet data "client_id" with
          | some (.pint n) => n ≥ 1
          | _ => false
        if !clientOk then .error "client_id must be a positive integer"
        else
          let amOk := match pyGet data "am_option" with
            | none => true
            | some .pnone => true
            | some v => pyEqStr v "DONT_LEAVE_MESSAGES" ||
                pyEqStr v "LEAVE_MESSAGES" || pyEqStr v "NO_AM"
          if !amOk then
            .error ("am_option must be one of: " ++ pyReprStrList
              (sortStr ["DONT_LEAVE_MESSAGES", "LEAVE_MESSAGES", "NO_AM"]))
          else
            let csOk := match pyGet data "contact_source" with
              | none => true
              | some .pnone => true
              | some v => pyEqStr v "CAMPAIGN" || pyEqStr v "CONTACT"
            if !csOk then
              .error ("contact_source must be one of: " ++
                pyReprStrList (sortStr ["CAMPAIGN", "CONTACT"]))
            else .ok ()

/-! ### Postgres query builder (`contact_mcp/query.py`) -/

/-- A filter mapping: column name to value/descriptor, in insertion order. -/
abbrev Filters := List (String × PyVal)

/-- The ten `phoneN` contact columns. -/
def phoneCols : List String :=
  (List.range 10).map (fun i => "phone" ++ Nat.repr (i + 1))

/-- The per-phone attempt/do-not-dial contact columns. -/
def phoneAttemptCols : List String :=
  ((List.range 10).map (fun i =>
    let p := "phone" ++ Nat.repr (i + 1)
    [p ++ "_attempts_today", p ++ "_attempts_lifetime",
     p ++ "_dnd", p ++ "_dnd_daily"])).flatten

/-- The per-phone consent contact columns. -/
def phoneConsentCols : List String :=
  ((List.range 10).map (fun i =>
    let p := "phone" ++ Nat.repr (i + 1)
    [p ++ "_sms_consent", p ++ "_cell_consent"])).flatten

/-- `query.CONTACT_COLUMNS`: the allowed columns of `lvousr.contact`. -/
def CONTACT_COLUMNS : List String :=
  ["lvaccount_id", "client_id", "account", "b_active", "account_to_speak",
   "first_name", "last_name", "dob", "email_address", "ssn"] ++
  phoneCols ++
  ["address1", "address2", "city", "state", "postalcode", "country_id",
   "guarantor_firstname", "guarantor_lastname", "paymentbalance",
   "amount_to_speak", "account_due_date", "callattemptstoday",
   "callattemptslifetime", "createdate", "createuser", "modifydate",
   "modifyuser", "initial_load_date", "initial_load_campaignid",
   "last_load_date", "last_load_campaignid", "do_not_dial",
   "do_not_dial_daily", "group_id", "original_account_number"] ++
  phoneAttemptCols ++
  ["sms", "email"] ++
  phoneConsentCols ++
  ["primary_email_consent", "agent_id", "agent_team_id", "description",
   "department", "salutation", "title", "happiness_index",
   "happiness_trend", "happiness_ndx_updated"]

/-- `query.CONTACT_DETAILS_COLUMNS`: the base columns plus `col1`–`col100`. -/
def CONTACT_DETAILS_COLUMNS : List String :=
  ["lvaccount_id", "client_id", "account"] ++
  (List.range 100).map (fun i => "col" ++ Nat.repr (i + 1))

/-- `query.TABLES`: logical table name to (physical name, allowed columns). -/
def TABLES (table : String) : Option (String × List String) :=
  if table = "contact" then some ("lvousr.contact", CONTACT_COLUMNS)
  else if table = "contact_details" then
    some ("lvousr.contact_details", CONTACT_DETAILS_COLUMNS)
  else none

/-- `query.BuiltQuery`: SQL text plus positional parameter list. -/
structure BuiltQuery where
  sql : String
  params : List PyVal

/-- `TABLES[table]` with Python's `KeyError` on a missing key. -/
def getTable (table : String) : Except String (String × List String) :=
  match TABLES table with
  | some entry => .ok entry
  | none => .error ("KeyError: " ++ table)

/-- `query._validate_columns`. -/
def validateColumnsQ (table : String) (columns : Option (List String)) :
    Except String (List String) := do
  let (_, allowed) ← getTable table
  match columns with
  | none => .ok ["*"]
  | some cols =>
      if cols.isEmpty then .ok ["*"]
      else
        let normalized := cols.map pyStrip
        let invalid := normalized.filter (fun c => !allowed.contains c)
        if !invalid.isEmpty then
          .error ("Invalid columns for " ++ table ++ ": " ++
            pyReprStrList invalid)
        else .ok normalized

/-- Operator sniffing in `query._validate_filters`: only a mapping with an
`op` key supplies an explicit operator; everything else (bare values,
including two-element sequences) keeps `eq`. -/
def sniffQ (v : PyVal) : String × PyVal :=
  match v with
  | .pmap kvs =>
      match pyGet kvs "op" with
      | some ov => (pyLower (pyStr ov), (pyGet kvs "value").getD .pnone)
      | none => ("eq", v)
  | _ => ("eq", v)

/-- The operator dispatch chain of `query._validate_filters`, emitting one
clause and its positional parameters. -/
def emitQ (column : String) (op : String) (operand : PyVal) :
    Except String (String × List PyVal) :=
  if op = "eq" || op = "=" then .ok (column ++ " = %s", [operand])
  else if op = "neq" || op = "!=" then .ok (column ++ " <> %s", [operand])
  else if op = "gt" then .ok (column ++ " > %s", [operand])
  else if op = "gte" then .ok (column ++ " >= %s", [operand])
  else if op = "lt" then .ok (column ++ " < %s", [operand])
  else if op = "lte" then .ok (column ++ " <= %s", [operand])
  else if op = "like" then .ok (column ++ " LIKE %s", [operand])
  else if op = "not_like" then .ok (column ++ " NOT LIKE %s", [operand])
  else if op = "ilike" then .ok (column ++ " ILIKE %s", [operand])
  else if op = "not_ilike" then .ok (column ++ " NOT ILIKE %s", [operand])
  else if op = "in" || op = "not_in" then
    match operand with
    | .plist xs =>
        if xs.isEmpty then
          .error (op ++ " operator requires a non-empty list")
        else
          let placeholders :=
            String.intercalate ", " (List.replicate xs.length "%s")
          let comparator := if op = "in" then "IN" else "NOT IN"
          .ok (column ++ " " ++ comparator ++ " (" ++ placeholders ++ ")", xs)
    | _ => .error (op ++ " operator requires a non-empty list")
  else if op = "between" then
    match operand with
    | .plist [a, b] => .ok (column ++ " BETWEEN %s AND %s", [a, b])
    | _ => .error "between operator requires a list of two values"
  else if op = "is_null" then .ok (column ++ " IS NULL", [])
  else if op = "is_not_null" then .ok (column ++ " IS NOT NULL", [])
  else .error ("Unsupported filter operator: " ++ op)

/-- One loop iteration of `query._validate_filters`: allowlist check,
operator sniffing, clause emission. -/
def translateEntryQ (allowed : List String) (table : String)
    (tableAlias : Option String) (key : String) (value : PyVal) :
    Except String (String × List PyVal) :=
  if !allowed.contains key then
    .error ("Invalid filter column for " ++ table ++ ": " ++ key)
  else
    let column := match tableAlias with
      | some a => a ++ "." ++ key
      | none => key
    let (op, operand) := sniffQ value
    emitQ column op operand

/-- The filter loop of `query._validate_filters`. -/
def goQ (allowed : List String) (table : String) (tableAlias : Option String) :
    Filters → Except String (List String × List PyVal)
  | [] => .ok ([], [])
  | (k, v) :: rest => do
      let (clause, ps) ← translateEntryQ allowed table tableAlias k v
      let (clauses, params) ← goQ allowed table tableAlias rest
      .ok (clause :: clauses, ps ++ params)

/-- `query._validate_filters`: WHERE fragment plus positional parameters. -/
def validateFiltersQ (table : String) (filters : Option Filters)
    (tableAlias : Option String := none) :
    Except String (String × List PyVal) :=
  match filters with
  | none => .ok ("", [])
  | some fs =>
      if fs.isEmpty then .ok ("", [])
      else do
        let (_, allowed) ← getTable table
        let (clauses, params) ← goQ allowed table tableAlias fs
        .ok (" WHERE " ++ String.intercalate " AND " clauses, params)

/-- `query._validate_order_by`. -/
def validateOrderByQ (table : String) (orderBy : Option String) :
    Except String String :=
  match orderBy with
  | none => .ok ""
  | some ob =>
      if ob = "" then .ok ""
      else
        match pySplitWs ob with
        | [] => .error "IndexError: list index out of range"
        | column :: restParts => do
            let direction := match restParts with
              | d :: _ => pyUpper d
              | [] => "ASC"
            let (_, allowed) ← getTable table
            if !allowed.contains column then
              .error ("Invalid order_by column for " ++ table ++ ": " ++ column)
            else if direction ≠ "ASC" && direction ≠ "DESC" then
              .error "order_by direction must be ASC or DESC"
            else .ok (" ORDER BY " ++ column ++ " " ++ direction)

/-- `query.build_select`: single-table SELECT with clamped limit/offset. -/
def build_select (table : String) (filters : Option Filters)
    (columns : Option (List String)) (limit : Int := 100) (offset : Int := 0)
    (orderBy : Option String := none) : Except String BuiltQuery :=
  if (TABLES table).isNone then .error ("Invalid table: " ++ table)
  else do
    let limit' := max 1 (min limit 1000)
    let offset' := max 0 offset
    let (tableName, _) ← getTable table
    let selectCols ← validateColumnsQ table columns
    let (whereSql, params) ← validateFiltersQ table filters
    let orderSql ← validateOrderByQ table orderBy
    .ok ⟨"SELECT " ++ String.intercalate ", " selectCols ++ " FROM " ++
      tableName ++ whereSql ++ orderSql ++ " LIMIT %s OFFSET %s",
      params ++ [.pint limit', .pint offset']⟩

/-- `query.build_count`: COUNT(*) with the same filter validation. -/
def build_count (table : String) (filters : Option Filters) :
    Except String BuiltQuery :=
  if (TABLES table).isNone then .error ("Invalid table: " ++ table)
  else do
    let (tableName, _) ← getTable table
    let (whereSql, params) ← validateFiltersQ table filters
    .ok ⟨"SELECT COUNT(*) AS count FROM " ++ tableName ++ whereSql, params⟩

/-- `query.build_contact_with_details_select`: LEFT JOIN of contact and
contact_details with aliased column expansion. -/
def build_contact_with_details_select (contactFilters : Option Filters)
    (detailsFilters : Option Filters) (contactColumns : Option (List String))
    (detailsColumns : Option (List String)) (limit : Int := 100)
    (offset : Int := 0) (orderBy : Option String := none) :
    Except String BuiltQuery := do
  let limit' := max 1 (min limit 1000)
  let offset' := max 0 offset
  let contactCols0 ← validateColumnsQ "contact" contactColumns
  let detailsCols0 ← validateColumnsQ "contact_details" detailsColumns
  let contactCols := if contactCols0 = ["*"] then sortStr CONTACT_COLUMNS
    else contactCols0
  let detailsCols := if detailsCols0 = ["*"] then
    sortStr CONTACT_DETAILS_COLUMNS else detailsCols0
  let contactSelect := contactCols.map
    (fun col => "c." ++ col ++ " AS contact_" ++ col)
  let detailsSelect := detailsCols.map
    (fun col => "d." ++ col ++ " AS details_" ++ col)
  let (whereContactSql, contactParams) ←
    validateFiltersQ "contact" contactFilters (some "c")
  let (whereDetailsSql, detailsParams) ←
    validateFiltersQ "contact_details" detailsFilters (some "d")
  let whereSql :=
    if whereContactSql ≠ "" && whereDetailsSql ≠ "" then
      whereContactSql ++ " AND " ++ pyLstrip " WHERE " whereDetailsSql
    else if whereContactSql ≠ "" then whereContactSql
    else if whereDetailsSql ≠ "" then whereDetailsSql
    else ""
  let params := contactParams ++ detailsParams
  let orderSql ← match orderBy with
    | none => pure ""
    | some ob =>
        if ob = "" then pure ""
        else
          match pySplitWs ob with
          | [] => Except.error "IndexError: list index out of range"
          | column :: restParts =>
              let direction := match restParts with
                | d :: _ => pyUpper d
                | [] => "ASC"
              if !CONTACT_COLUMNS.contains column then
                Except.error ("Invalid order_by column for contact: " ++ column)
              else if direction ≠ "ASC" && direction ≠ "DESC" then
                Except.error "order_by direction must be ASC or DESC"
              else pure (" ORDER BY c." ++ column ++ " " ++ direction)
  .ok ⟨"SELECT " ++
    String.intercalate ", " (contactSelect ++ detailsSelect) ++
    " FROM lvousr.contact c LEFT JOIN lvousr.contact_details d" ++
    " ON c.lvaccount_id = d.lvaccount_id" ++ whereSql ++ orderSql ++
    " LIMIT %s OFFSET %s",
    params ++ [.pint limit', .pint offset']⟩

/-! ### Transaction query builders (`contact_mcp/transaction.py`) -/

/-- Numbered column group helper (`PREFIX_1` … `PREFIX_n`). -/
def numberedCols (prefix_ : String) (n : Nat) : List String :=
  (List.range n).map (fun i => prefix_ ++ Nat.repr (i + 1))

/-- `transaction.TRANSACTION_COLUMNS`: allowed transaction columns. -/
def TRANSACTION_COLUMNS : List String :=
  ["ACCT_TRANSACTION_ID", "ACCOUNT", "PATIENT_FIRSTNAME", "PATIENT_LASTNAME",
   "GUARANTOR_FIRSTNAME", "GUARANTOR_LASTNAME", "PATIENT_PHONE1",
   "PATIENT_PHONE2", "PATIENT_DOB", "PATIENT_EMAIL", "PATIENT_SSN",
   "PATIENT_FIRST_ID", "PATIENT_SECOND_ID", "PRACTICE_ID", "CLIENT_ID",
   "CLIENT_PRACTICE_ID", "PRACTICE_PHONE", "PRACTICE_PHONE_ALTERNATE",
   "OPERATOR_PHONE", "PLACE_OF_SERVICE_ID"] ++
  numberedCols "ALT_LANGUAGE_" 3 ++ numberedCols "LANGUAGE_CALLBACK_" 3 ++
  ["PRACTICE_FAX", "INSURANCE_TYPE", "INSURANCE_COMPANY", "TEMPLATE_ID",
   "REQUEUE_ID", "LAST_PAYMENT_DATE", "TOTAL_AMOUNT",
   "MINIMUM_PAYMENT_AMOUNT", "ACCOUNT_TO_SPEAK", "AMOUNT_TO_SPEAK",
   "DISCOUNT_AMOUNT_TO_SPEAK", "DISCOUNT_PERCENTAGE_TO_SPEAK",
   "DAYS_TO_SPEAK"] ++
  ((List.range 6).map (fun i =>
    ["AMOUNT_" ++ Nat.repr (i + 1), "DAYS_DUE_" ++ Nat.repr (i + 1)])).flatten ++
  ["INPUT_ID_MENU", "INPUT_DYNAMIC_MENU_1", "INPUT_DYNAMIC_MENU_2",
   "INPUT_CREDIT_CARD_NUMBER", "INPUT_CREDIT_CARD_EXP_DATE",
   "INPUT_APPROVAL_CODE", "INPUT_PAYMENT_AMOUNT", "INPUT_OTHER_PHONE_NUMBER",
   "INPUT_FAX_PHONE_NUMBER", "INPUT_SSN", "INPUT_DOB", "INPUT_FIRST_ID",
   "INPUT_SECOND_ID", "CONFIRM_CREDIT_CARD_NUMBER",
   "CONFIRM_CREDIT_CARD_EXP_DATE", "CONFIRM_APPROVAL_CODE",
   "CONFIRM_PAYMENT_AMOUNT", "CONFIRM_OTHER_PHONE_NUMBER",
   "CONFIRM_FAX_PHONE_NUMBER", "CONFIRM_FIRST_ID", "CONFIRM_SECOND_ID",
   "LANGUAGE"] ++
  numberedCols "EXTRA_" 20 ++
  ["LIVE_PERSON", "MACHINE", "NOT_AVAILABLE"] ++
  numberedCols "LEAD_" 6 ++
  ["LEAD_CREDIT_CARD_NUMBER", "LEAD_OTHER_PHONE_NUMBER",
   "LEAD_OTHER_FAX_NUMBER", "NO_INPUT", "QUEUED", "B_ACTIVE",
   "TRANSACTION_UPDATE", "ATTEMPT", "CALL_START_TIME", "CALL_CONNECT_TIME",
   "CALL_FINISH_TIME", "CALL_DURATION", "OUTCOME", "RESULT1", "RESULT2",
   "TFH_RESULT", "PHONE_DIALED", "PHONE_UPDATE", "TRANSFER_CONNECT_TIME",
   "TRANSFER_DURATION", "DATE_MODIFIED", "BILLING", "SESSION_ID",
   "CAMPAIGN_ID", "LVTRANSACTION_TYPE", "ORIGINAL_ACCOUNT_NUMBER",
   "CHAT_RATING", "LVTRANSACTION_SUBTYPE", "ASSIGNED_THREAD_OWNER_AGENT_ID",
   "ACTIVE_THREAD"]

/-- `transaction.OracleQuery`: SQL text plus named-parameter map. -/
structure OracleQuery where
  sql : String
  params : List (String × PyVal)

/-- `transaction.PostgresQuery`: SQL text plus positional parameter list. -/
structure PostgresQuery where
  sql : String
  params : List PyVal

/-- `transaction._normalize_identifier`: strip then uppercase. -/
def normalizeIdentifier (name : String) : String := pyUpper (pyStrip name)

/-- Allowed-column resolution used by the transaction validators:
`contact` uses the uppercased contact columns, everything else the
transaction columns. -/
def allowedColsT (table : String) : List String :=
  if table = "contact" then CONTACT_COLUMNS.map pyUpper
  else TRANSACTION_COLUMNS

/-- `transaction._validate_columns`. -/
def validateColumnsT (columns : Option (List String))
    (table : String := "transaction") : Except String (List String) :=
  match columns with
  | none => .ok ["*"]
  | some cols =>
      if cols.isEmpty then .ok ["*"]
      else
        let allowed := allowedColsT table
        let normalized := cols.map normalizeIdentifier
        let invalid := normalized.filter (fun c => !allowed.contains c)
        if !invalid.isEmpty then
          .error ("Invalid columns for " ++ table ++ ": " ++
            pyReprStrList invalid)
        else .ok normalized

/-- Operator sniffing shared by the transaction translators: a two-element
sequence supplies `[op, value]`, a mapping with an `op` key supplies a
descriptor, anything else is a bare `=` operand. -/
def sniffT (v : PyVal) : String × PyVal :=
  match v with
  | .plist [a, b] => (pyLower (pyStr a), b)
  | .pmap kvs =>
      match pyGet kvs "op" with
      | some ov => (pyLower (pyStr ov), (pyGet kvs "value").getD .pnone)
      | none => ("=", v)
  | _ => ("=", v)

/-- A decimal digit character. -/
def decimalDigit (d : Nat) : Char :=
  match d with
  | 0 => '0' | 1 => '1' | 2 => '2' | 3 => '3' | 4 => '4'
  | 5 => '5' | 6 => '6' | 7 => '7' | 8 => '8' | _ => '9'

/-- Fuel-driven decimal digit rendering (most significant digit first). -/
def natReprAux : Nat → Nat → List Char
  | 0, _ => []
  | fuel + 1, n =>
      if n = 0 then []
      else natReprAux fuel (n / 10) ++ [decimalDigit (n % 10)]

/-- Python `f"{n}"` for a natural number. -/
def natRepr (n : Nat) : String :=
  if n = 0 then "0" else String.mk (natReprAux n n)

/-- Decimal value of a digit character list (inverse of `natReprAux`). -/
def digitsVal (cs : List Char) : Nat :=
  cs.foldl (fun acc c => acc * 10 + (c.toNat - 48)) 0

/-- Oracle bind name `p{counter}`. -/
def bindName (counter : Nat) : String := "p" ++ natRepr counter

/-- The operator dispatch chain of the Oracle `transaction._validate_filters`,
emitting one clause, its named parameters and the next counter value. -/
def emitT (counter : Nat) (column : String) (op : String) (operand : PyVal) :
    Except String (String × List (String × PyVal) × Nat) :=
  if op = "eq" || op = "=" then
    .ok (column ++ " = :" ++ bindName counter,
      [(bindName counter, convertToDate operand)], counter + 1)
  else if op = "neq" || op = "!=" || op = "<>" then
    .ok (column ++ " <> :" ++ bindName counter,
      [(bindName counter, convertToDate operand)], counter + 1)
  else if op = "gt" || op = ">" then
    .ok (column ++ " > :" ++ bindName counter,
      [(bindName counter, convertToDate operand)], counter + 1)
  else if op = "gte" || op = ">=" then
    .ok (column ++ " >= :" ++ bindName counter,
      [(bindName counter, convertToDate operand)], counter + 1)
  else if op = "lt" || op = "<" then
    .ok (column ++ " < :" ++ bindName counter,
      [(bindName counter, convertToDate operand)], counter + 1)
  else if op = "lte" || op = "<=" then
    .ok (column ++ " <= :" ++ bindName counter,
      [(bindName counter, convertToDate operand)], counter + 1)
  else if op = "like" then
    .ok (column ++ " LIKE :" ++ bindName counter,
      [(bindName counter, operand)], counter + 1)
  else if op = "not_like" then
    .ok (column ++ " NOT LIKE :" ++ bindName counter,
      [(bindName counter, operand)], counter + 1)
  else if op = "ilike" then
    .ok ("LOWER(" ++ column ++ ") LIKE LOWER(:" ++ bindName counter ++ ")",
      [(bindName counter, operand)], counter + 1)
  else if op = "not_ilike" then
    .ok ("LOWER(" ++ column ++ ") NOT LIKE LOWER(:" ++ bindName counter ++ ")",
      [(bindName counter, operand)], counter + 1)
  else if op = "in" || op = "not_in" then
    match operand with
    | .plist xs =>
        if xs.isEmpty then
          .error (op ++ " operator requires a non-empty list")
        else
          let names := (List.range xs.length).map
            (fun i => bindName (counter + i))
          let comparator := if op = "in" then "IN" else "NOT IN"
          .ok (column ++ " " ++ comparator ++ " (" ++
            String.intercalate ", " (names.map (fun n => ":" ++ n)) ++ ")",
            (names.zip (xs.map convertToDate)), counter + xs.length)
    | _ => .error (op ++ " operator requires a non-empty list")
  else if op = "between" then
    match operand with
    | .plist [a, b] =>
        .ok (column ++ " BETWEEN :" ++ bindName counter ++ " AND :" ++
          bindName (counter + 1),
          [(bindName counter, convertToDate a),
           (bindName (counter + 1), convertToDate b)], counter + 2)
    | _ => .error "between operator requires a list of two values"
  else if op = "is_null" then .ok (column ++ " IS NULL", [], counter)
  else if op = "is_not_null" then .ok (column ++ " IS NOT NULL", [], counter)
  else .error ("Unsupported filter operator: " ++ op)

/-- One loop iteration of the Oracle `transaction._validate_filters`. -/
def translateEntryT (table : String) (counter : Nat) (key : String)
    (value : PyVal) : Except String (String × List (String × PyVal) × Nat) :=
  let column := normalizeIdentifier key
  if !(allowedColsT table).contains column then
    .error ("Invalid filter column for " ++ table ++ ": " ++ column)
  else
    let (op, operand) := sniffT value
    emitT counter column op operand

/-- The filter loop of the Oracle `transaction._validate_filters`. -/
def goT (table : String) : Nat → Filters →
    Except String (List String × List (String × PyVal))
  | _, [] => .ok ([], [])
  | counter, (k, v) :: rest => do
      let (clause, ps, counter') ← translateEntryT table counter k v
      let (clauses, params) ← goT table counter' rest
      .ok (clause :: clauses, ps ++ params)

/-- `transaction._validate_filters` (Oracle): WHERE fragment plus named
parameters, bind names `p1`, `p2`, … in emission order. -/
def validateFiltersT (filters : Option Filters)
    (table : String := "transaction") :
    Except String (String × List (String × PyVal)) :=
  match filters with
  | none => .ok ("", [])
  | some fs =>
      if fs.isEmpty then .ok ("", [])
      else do
        let (clauses, params) ← goT table 1 fs
        .ok (" WHERE " ++ String.intercalate " AND " clauses, params)

/-- `transaction._validate_order_by` (always checks the transaction
column set). -/
def validateOrderByT (orderBy : Option String) : Except String String :=
  match orderBy with
  | none => .ok ""
  | some ob =>
      if ob = "" then .ok ""
      else
        match pySplitWs ob with
        | [] => .error "IndexError: list index out of range"
        | column0 :: restParts =>
            let column := normalizeIdentifier column0
            let direction := match restParts with
              | d :: _ => pyUpper d
              | [] => "ASC"
            if !TRANSACTION_COLUMNS.contains column then
              .error ("Invalid order_by column for transaction: " ++ column)
            else if direction ≠ "ASC" && direction ≠ "DESC" then
              .error "order_by direction must be ASC or DESC"
            else .ok (" ORDER BY " ++ column ++ " " ++ direction)

/-- `transaction.build_transaction_union` (Oracle): UNION ALL over the
given tables with one shared named-parameter predicate. -/
def build_transaction_union (tableNames : List String)
    (filters : Option Filters) (columns : Option (List String))
    (limit : Int := 100) (orderBy : Option String := none) :
    Except String OracleQuery :=
  if tableNames.isEmpty then
    .error "At least one transaction table must be provided"
  else do
    let limit' := max 1 (min limit 1000)
    let selectCols ← validateColumnsT columns
    let (whereSql, params) ← validateFiltersT filters
    let orderSql ← validateOrderByT orderBy
    let columnsSql := if selectCols = ["*"] then "*"
      else String.intercalate ", " selectCols
    let parts := tableNames.map
      (fun name => "SELECT " ++ columnsSql ++ " FROM " ++ name ++ whereSql)
    let unionSql := String.intercalate " UNION ALL " parts
    .ok ⟨"SELECT * FROM (" ++ unionSql ++ ")" ++ orderSql ++
      " FETCH FIRST :limit ROWS ONLY",
      params ++ [("limit", .pint limit')]⟩

/-- A calendar date, as far as the resolver consumes one. -/
structure Date where
  year : Int
  month : Int
  day : Int

/-- Helper for `previousMonths`: step the month backwards `count` times. -/
def previousMonthsAux : Int → Int → Nat → List (Int × Int)
  | _, _, 0 => []
  | year, month, Nat.succ k =>
      let month' := month - 1
      if month' = 0 then (12, year - 1) :: previousMonthsAux (year - 1) 12 k
      else (month', year) :: previousMonthsAux year month' k

/-- `transaction._previous_months`: the `count` (month, year) pairs strictly
preceding `today`'s month, most recent first. -/
def previousMonths (today : Date) (count : Nat) : List (Int × Int) :=
  previousMonthsAux today.year today.month count

/-- Python `f"{n:02d}"` for the suffix digits. -/
def pad2 (n : Int) : String :=
  if 0 ≤ n && n < 10 then "0" ++ toString n else toString n

/-- `transaction.resolve_transaction_tables`: the live table qualified with
`dialing_db`, then `archiveCount` month-suffixed archive tables qualified
with `reporting_db` when present. `archiveCount` stands for the
`get_transaction_archive_count()` configuration read. -/
def resolve_transaction_tables (archiveCount : Nat) (dialingDb : String)
    (reportingDb : Option String) (today : Date) :
    Except String (List String) :=
  if dialingDb = "" then .error "dialing_db is required"
  else
    let tableNames := ["LVOUSR.TRANSACTION@" ++ dialingDb]
    match reportingDb with
    | some r =>
        if r ≠ "" && archiveCount > 0 then
          .ok (tableNames ++ (previousMonths today archiveCount).map
            (fun my => "LVOUSR.TRANSACTION_" ++ pad2 my.1 ++
              pad2 (my.2 % 100) ++ "@" ++ r))
        else .ok tableNames
    | none => .ok tableNames

/-- Default of the `ORACLE_CLIENT_TABLE` environment setting. -/
def ORACLE_CLIENT_TABLE : String := "lvousr.client"

/-- `transaction.get_client_db_links_query`. -/
def get_client_db_links_query (clientId : Int) :
    String × List (String × PyVal) :=
  ("SELECT dialing_db, reporting_db FROM " ++ ORACLE_CLIENT_TABLE ++
    " WHERE client_id = :client_id", [("client_id", .pint clientId)])

/-- `transaction.get_skills_for_client_query`. -/
def get_skills_for_client_query (clientId : Int) :
    String × List (String × PyVal) :=
  ("SELECT skill_id FROM lvousr.skillxclient WHERE client_id = :client_id",
   [("client_id", .pint clientId)])

/-- `transaction.build_oracle_contact_select`. -/
def build_oracle_contact_select (dialingDb : String)
    (filters : Option Filters) (columns : Option (List String))
    (limit : Int := 100) (orderBy : Option String := none) :
    Except String OracleQuery :=
  if dialingDb = "" then .error "dialing_db is required"
  else do
    let limit' := max 1 (min limit 1000)
    let selectCols ← validateColumnsT columns "contact"
    let (whereSql, params) ← validateFiltersT filters "contact"
    let orderSql ← validateOrderByT orderBy
    let columnsSql := if selectCols = ["*"] then "*"
      else String.intercalate ", " selectCols
    let tableName := "lvousr.contact@" ++ dialingDb
    .ok ⟨"SELECT " ++ columnsSql ++ " FROM " ++ tableName ++ whereSql ++
      orderSql ++ " FETCH FIRST :limit ROWS ONLY",
      params ++ [("limit", .pint limit')]⟩

/-- Allowed-column resolution of the Postgres validators (lowercased). -/
def allowedColsP (table : String) : List String :=
  if table = "contact" then CONTACT_COLUMNS.map pyLower
  else TRANSACTION_COLUMNS.map pyLower

/-- The operator dispatch chain of `transaction._validate_filters_postgres`
(no `not_like`/`not_ilike`, no date conversion, `%s` placeholders). -/
def emitP (column : String) (op : String) (operand : PyVal) :
    Except String (String × List PyVal) :=
  if op = "eq" || op = "=" then .ok (column ++ " = %s", [operand])
  else if op = "neq" || op = "!=" || op = "<>" then
    .ok (column ++ " <> %s", [operand])
  else if op = "gt" || op = ">" then .ok (column ++ " > %s", [operand])
  else if op = "gte" || op = ">=" then .ok (column ++ " >= %s", [operand])
  else if op = "lt" || op = "<" then .ok (column ++ " < %s", [operand])
  else if op = "lte" || op = "<=" then .ok (column ++ " <= %s", [operand])
  else if op = "like" then .ok (column ++ " LIKE %s", [operand])
  else if op = "ilike" then .ok (column ++ " ILIKE %s", [operand])
  else if op = "in" || op = "not_in" then
    match operand with
    | .plist xs =>
        if xs.isEmpty then
          .error (op ++ " operator requires a non-empty list")
        else
          let placeholders :=
            String.intercalate ", " (List.replicate xs.length "%s")
          let comparator := if op = "in" then "IN" else "NOT IN"
          .ok (column ++ " " ++ comparator ++ " (" ++ placeholders ++ ")", xs)
    | _ => .error (op ++ " operator requires a non-empty list")
  else if op = "between" then
    match operand with
    | .plist [a, b] => .ok (column ++ " BETWEEN %s AND %s", [a, b])
    | _ => .error "between operator requires a list of two values"
  else if op = "is_null" then .ok (column ++ " IS NULL", [])
  else if op = "is_not_null" then .ok (column ++ " IS NOT NULL", [])
  else .error ("Unsupported filter operator: " ++ op)

/-- One loop iteration of `transaction._validate_filters_postgres`. -/
def translateEntryP (table : String) (key : String) (value : PyVal) :
    Except String (String × List PyVal) :=
  let column := pyLower (pyStrip key)
  if !(allowedColsP table).contains column then
    .error ("Invalid filter column for " ++ table ++ ": " ++ column)
  else
    let (op, operand) := sniffT value
    emitP column op operand

/-- The filter loop of `transaction._validate_filters_postgres`. -/
def goP (table : String) : Filters → Except String (List String × List PyVal)
  | [] => .ok ([], [])
  | (k, v) :: rest => do
      let (clause, ps) ← translateEntryP table k v
      let (clauses, params) ← goP table rest
      .ok (clause :: clauses, ps ++ params)

/-- `transaction._validate_filters_postgres`. -/
def validateFiltersPostgres (filters : Option Filters)
    (table : String := "transaction") :
    Except String (String × List PyVal) :=
  match filters with
  | none => .ok ("", [])
  | some fs =>
      if fs.isEmpty then .ok ("", [])
      else do
        let (clauses, params) ← goP table fs
        .ok (" WHERE " ++ String.intercalate " AND " clauses, params)

/-- `transaction._validate_order_by_postgres`. -/
def validateOrderByPostgres (orderBy : Option String)
    (table : String := "transaction") : Except String String :=
  match orderBy with
  | none => .ok ""
  | some ob =>
      if ob = "" then .ok ""
      else
        match pySplitWs ob with
        | [] => .error "IndexError: list index out of range"
        | column0 :: restParts =>
            let column := pyLower column0
            let direction := match restParts with
              | d :: _ => pyUpper d
              | [] => "ASC"
            if !(allowedColsP table).contains column then
              .error ("Invalid order_by column for " ++ table ++ ": " ++ column)
            else if direction ≠ "ASC" && direction ≠ "DESC" then
              .error "order_by direction must be ASC or DESC"
            else .ok (" ORDER BY " ++ column ++ " " ++ direction)

/-- `transaction.build_postgres_transaction_union`: UNION ALL with the
per-table parameter list repeated once per branch; note the projected
columns are only lowercased, never validated. -/
def build_postgres_transaction_union (tableNames : List String)
    (filters : Option Filters) (columns : Option (List String))
    (limit : Int := 100) (orderBy : Option String := none) :
    Except String PostgresQuery :=
  if tableNames.isEmpty then
    .error "At least one transaction table must be provided"
  else do
    let limit' := max 1 (min limit 1000)
    let selectCols := match columns with
      | some cols => if cols.isEmpty then ["*"] else cols.map pyLower
      | none => ["*"]
    let (whereSql, params) ← validateFiltersPostgres filters "transaction"
    let orderSql ← validateOrderByPostgres orderBy "transaction"
    let columnsSql := if selectCols = ["*"] then "*"
      else String.intercalate ", " selectCols
    let pgTableNames := tableNames.map (fun name =>
      match pySplitChar '@' name with
      | base :: _ => pyLower base
      | [] => pyLower name)
    let parts := pgTableNames.map
      (fun table => "SELECT " ++ columnsSql ++ " FROM " ++ table ++ whereSql)
    let allParams := (List.replicate pgTableNames.length params).flatten
    let unionSql := String.intercalate " UNION ALL " parts
    .ok ⟨"SELECT * FROM (" ++ unionSql ++ ") AS combined" ++ orderSql ++
      " LIMIT %s", allParams ++ [.pint limit']⟩

/-- `transaction.build_postgres_contact_select`. -/
def build_postgres_contact_select (filters : Option Filters)
    (columns : Option (List String)) (limit : Int := 100)
    (orderBy : Option String := none) : Except String PostgresQuery := do
  let limit' := max 1 (min limit 1000)
  let selectCols := match columns with
    | some cols => if cols.isEmpty then ["*"] else cols.map pyLower
    | none => ["*"]
  let (whereSql, params) ← validateFiltersPostgres filters "contact"
  let orderSql ← validateOrderByPostgres orderBy "contact"
  let columnsSql := if selectCols = ["*"] then "*"
    else String.intercalate ", " selectCols
  .ok ⟨"SELECT " ++ columnsSql ++ " FROM lvousr.contact" ++ whereSql ++
    orderSql ++ " LIMIT %s", params ++ [.pint limit']⟩

/-! ### Database-type router (`contact_mcp/config.py`) -/

/-- `config.get_db_type`: empty links default to oracle, links containing
`stg4b` (case-insensitive) classify as postgres, everything else oracle. -/
def get_db_type (dbLink : String) : String :=
  if dbLink = "" then "oracle"
  else if containsSub (pyLower dbLink) "stg4b" then "postgres"
  else "oracle"

/-! ### Campaign query builders (absent `contact_mcp/campaign.py`)

`tools.py` imports `build_campaign_insert`, `build_count_query_for_campaign`,
`build_source_query_for_campaign` and `build_transaction_insert_from_select`
from a `campaign` module that is not among the sources; the four builders
below are modelled from the specification (§4.3, §4.6). -/

/-- Modelled from the spec: `campaign.build_count_query_for_campaign` is
missing from the sources. Per §4.6 step 3 it builds a COUNT query against
the resolved table set with the resolved filter (raising `ValueError` on
invalid filters, which `tools.py` catches). -/
def build_count_query_for_campaign (dialingDb : String) (filters : Filters)
    (tableNames : List String) :
    Except String (String × List (String × PyVal)) := do
  let (whereSql, params) ← validateFiltersT (some filters)
  let parts := tableNames.map
    (fun name => "SELECT COUNT(*) FROM " ++ name ++ whereSql)
  let _ := dialingDb
  .ok ("SELECT SUM(cnt) FROM (" ++
    String.intercalate " UNION ALL " (parts.map (fun p => p ++ " cnt")) ++
    ")", params)

/-- Modelled from the spec: `campaign.build_campaign_insert` is missing
from the sources. Per §4.3 it builds a parameterized INSERT with an
output-bound parameter receiving the generated campaign id. -/
def build_campaign_insert (data : List (String × PyVal)) : OracleQuery :=
  let cols := data.map Prod.fst
  ⟨"INSERT INTO lvousr.campaign (" ++ String.intercalate ", " cols ++
    ") VALUES (" ++
    String.intercalate ", " (cols.map (fun c => ":" ++ c)) ++
    ") RETURNING campaign_id INTO :out_campaign_id", data⟩

/-- Modelled from the spec: `campaign.build_source_query_for_campaign` is
missing from the sources. Per §4.3 it builds the source SELECT over the
table set with the shared predicate, wrapped in a `FETCH FIRST` clause
when `max_records` is supplied. -/
def build_source_query_for_campaign (filters : Filters)
    (tableNames : List String) (maxRecords : Option Int) :
    Except String (String × List (String × PyVal)) := do
  let (whereSql, params) ← validateFiltersT (some filters)
  let parts := tableNames.map
    (fun name => "SELECT * FROM " ++ name ++ whereSql)
  let select := String.intercalate " UNION ALL " parts
  match maxRecords with
  | some m => .ok ("SELECT * FROM (" ++ select ++ ") FETCH FIRST " ++
      toString m ++ " ROWS ONLY", params)
  | none => .ok (select, params)

/-- Modelled from the spec: `campaign.build_transaction_insert_from_select`
is missing from the sources. Per §4.3 it builds the single derived
`INSERT INTO transaction SELECT ...` with the literal campaign id
substituted into the selected column list. -/
def build_transaction_insert_from_select (dialingDb : String)
    (campaignId : Int) (sourceQuery : String)
    (sourceParams : List (String × PyVal)) :
    String × List (String × PyVal) :=
  ("INSERT INTO LVOUSR.TRANSACTION@" ++ dialingDb ++ " SELECT src.*, " ++
    toString campaignId ++ " AS CAMPAIGN_ID FROM (" ++ sourceQuery ++ ") src",
   sourceParams)

/-! ### Tool layer (`contact_mcp/tools.py`)

The tools execute against backends; each backend capability is passed in
explicitly, and the state-changing statements the workflow executes are
recorded as an ordered action trace. -/

/-- A state-changing or gated database statement executed by the campaign
workflow. -/
inductive DbAction where
  | countExec
  | campaignInsert
  | txInsert
deriving DecidableEq

/-- The backend capabilities `create_campaign_from_query` consumes:
client-link lookup, skills lookup, count-query evaluation, the generated
campaign id, the derived-insert rowcount, and the timestamp used for the
default filename. -/
structure OracleEnv where
  clientLinks : Int → Option (String × Option String)
  skillsForClient : Int → List PyVal
  countFor : String → List (String × PyVal) → Int
  newCampaignId : Int
  insertRowcount : Int
  nowStamp : String

/-- The result dictionary of `create_campaign_from_query`. -/
structure CampaignResult where
  success : Bool
  error : Option String := none
  campaign_id : Option Int := none
  client_id : Option Int := none
  skill_id : Option PyVal := none
  records_found : Option Int := none
  records_inserted : Option Int := none
  query_filters : Option Filters := none

/-- `skill_id_for_campaign` extraction from a `CLIENT_ID` filter value in
`tools.create_campaign_from_query` (a two-element operator form yields the
second element; an empty sequence raises `IndexError`). -/
def skillFromFilterValue : PyVal → Except String PyVal
  | .plist [] => .error "IndexError: list index out of range"
  | .plist [a] => .ok a
  | .plist (_ :: b :: _) => .ok b
  | v => .ok v

/-- `tools.create_campaign_from_query`: resolve routing, restrict to the
Oracle backend, resolve the skill scope, count candidates, gate on zero,
create the campaign, then insert the derived rows. Returns the result
dictionary paired with the trace of gated statements executed. -/
def create_campaign_from_query (env : OracleEnv) (clientId : Int)
    (queryFilters : Filters) (campaignData : Option Filters)
    (maxRecords : Option Int) :
    Except String (CampaignResult × List DbAction) :=
  match env.clientLinks clientId with
  | none =>
      .ok ({ success := false,
             error := some ("No client found for client_id " ++
               toString clientId) }, [])
  | some (dialingDb, _reportingDb) =>
      let dbType := get_db_type dialingDb
      if dbType ≠ "oracle" then
        .ok ({ success := false,
               error := some
                 "create_campaign_from_query currently only supports Oracle databases" },
          [])
      else
        let tableNames := ["LVOUSR.TRANSACTION@" ++ dialingDb]
        let clientIdKey := (queryFilters.find?
          (fun kv => pyUpper kv.1 = "CLIENT_ID")).map Prod.fst
        let skillStep : Except String (Filters × Option PyVal) :=
          match clientIdKey with
          | some k =>
              match pyGet queryFilters k with
              | some v => (skillFromFilterValue v).map
                  (fun skill => (queryFilters, some skill))
              | none => (skillFromFilterValue .pnone).map
                  (fun skill => (queryFilters, some skill))
          | none =>
              let skillIds := env.skillsForClient clientId
              match skillIds with
              | [] => .ok (queryFilters, none)
              | [s] => .ok (pySet queryFilters "client_id" s, some s)
              | s :: _ => .ok (pySet queryFilters "client_id"
                  (.pmap [("op", .pstr "in"), ("value", .plist skillIds)]),
                  some s)
        match skillStep with
        | .error e => .error e
        | .ok (filters, skillOpt) =>
            if clientIdKey.isNone && skillOpt.isNone then
              .ok ({ success := false,
                     error := some ("No active skills found for client_id " ++
                       toString clientId) }, [])
            else
              match build_count_query_for_campaign dialingDb filters
                  tableNames with
              | .error e =>
                  .ok ({ success := false,
                         error := some ("Invalid query filters: " ++ e) }, [])
              | .ok (countSql, countParams) =>
                  let recordCount := env.countFor countSql countParams
                  if recordCount = 0 then
                    .ok ({ success := false,
                           error := some
                             "No records match the query criteria. Campaign not created.",
                           records_found := some 0 }, [.countExec])
                  else
                    let campData0 := match campaignData with
                      | some d => d
                      | none => []
                    let campData1 := pySet campData0 "client_id"
                      (.pint clientId)
                    let campData2 :=
                      if !pyHasKey campData1 "skill_id" then
                        match skillOpt with
                        | some skill =>
                            if pyTruthy skill then
                              pySet campData1 "skill_id" skill
                            else campData1
                        | none => campData1
                      else campData1
                    let campData :=
                      if !pyHasKey campData2 "filename" then
                        pySet campData2 "filename"
                          (.pstr ("auto_campaign_" ++ env.nowStamp))
                      else campData2
                    match validate_campaign_insert campData with
                    | .error e =>
                        .ok ({ success := false,
                               error := some ("Invalid campaign data: " ++ e) },
                          [.countExec])
                    | .ok _ =>
                        let _insert := build_campaign_insert campData
                        let campaignId := env.newCampaignId
                        match build_source_query_for_campaign filters
                            tableNames maxRecords with
                        | .error e => .error e
                        | .ok (sourceQuery, whereParams) =>
                            let _txInsert := build_transaction_insert_from_select
                              dialingDb campaignId sourceQuery whereParams
                            let rowsInserted := env.insertRowcount
                            .ok ({ success := true,
                                   campaign_id := some campaignId,
                                   client_id := some clientId,
                                   skill_id := skillOpt,
                                   records_found := some recordCount,
                                   records_inserted := some rowsInserted,
                                   query_filters := some filters },
                              [.countExec, .campaignInsert, .txInsert])

/-- `tools.select_records`: build the select, execute it, and return the
fetched rows as-is (no redaction pass). -/
def select_records (execute : BuiltQuery → List Row) (table : String)
    (filters : Option Filters) (columns : Option (List String))
    (limit : Int := 100) (offset : Int := 0)
    (orderBy : Option String := none) : Except String (List Row) := do
  let query ← build_select table filters columns limit offset orderBy
  .ok (execute query)

/-- `tools.select_contacts_with_details`: build the joined select, execute
it, and return the fetched rows as-is (no redaction pass). -/
def select_contacts_with_details (execute : BuiltQuery → List Row)
    (contactFilters : Option Filters) (detailsFilters : Option Filters)
    (contactColumns : Option (List String))
    (detailsColumns : Option (List String)) (limit : Int := 100)
    (offset : Int := 0) (orderBy : Option String := none) :
    Except String (List Row) := do
  let query ← build_contact_with_details_select contactFilters detailsFilters
    contactColumns detailsColumns limit offset orderBy
  .ok (execute query)

/-! ### Derived notions used to state the claims -/

/-- The (month, year) lying `k` calendar months before `today`, computed by
linearized month arithmetic (so December-to-January rollover is by
construction a subtraction): an independent characterization to compare
`_previous_months` against. -/
def monthsBefore (year month : Int) (k : Nat) : Int × Int :=
  let t : Int := year * 12 + (month - 1) - k
  (t % 12 + 1, t / 12)

/-- The part of an operand the generated SQL text may depend on: whether it
is a sequence, and of which length. -/
def operandShape : PyVal → Option Nat
  | .plist xs => some xs.length
  | _ => none

/-- The SQL-relevant shape of a filter value under the transaction-style
sniffing: the derived operator name and the operand's collection shape. -/
def shapeT (v : PyVal) : String × Option Nat :=
  ((sniffT v).1, operandShape (sniffT v).2)

/-- The SQL-relevant shape of a filter value under the `query.py` sniffing. -/
def shapeQ (v : PyVal) : String × Option Nat :=
  ((sniffQ v).1, operandShape (sniffQ v).2)

/-- Two filter mappings with the same keys in the same order and
shape-equal values (transaction-style sniffing). -/
def ShapeEqT (fs1 fs2 : Filters) : Prop :=
  List.Forall₂ (fun a b => a.1 = b.1 ∧ shapeT a.2 = shapeT b.2) fs1 fs2

/-- Two filter mappings with the same keys in the same order and
shape-equal values (`query.py` sniffing). -/
def ShapeEqQ (fs1 fs2 : Filters) : Prop :=
  List.Forall₂ (fun a b => a.1 = b.1 ∧ shapeQ a.2 = shapeQ b.2) fs1 fs2

/-- The operator names the `query.py` dispatch chain accepts. -/
def supportedOpsQ : List String :=
  ["eq", "=", "neq", "!=", "gt", "gte", "lt", "lte", "like", "not_like",
   "ilike", "not_ilike", "in", "not_in", "between", "is_null", "is_not_null"]

/-- The operator names the Oracle transaction dispatch chain accepts. -/
def supportedOpsT : List String :=
  ["eq", "=", "neq", "!=", "<>", "gt", ">", "gte", ">=", "lt", "<",
   "lte", "<=", "like", "not_like", "ilike", "not_ilike", "in", "not_in",
   "between", "is_null", "is_not_null"]

/-- The operator names the Postgres transaction dispatch chain accepts. -/
def supportedOpsP : List String :=
  ["eq", "=", "neq", "!=", "<>", "gt", ">", "gte", ">=", "lt", "<",
   "lte", "<=", "like", "ilike", "in", "not_in", "between", "is_null",
   "is_not_null"]

/-- A `PyVal` that the filter sniffers treat as a bare operand: anything
that is neither a two-element sequence nor a mapping carrying an `op` key. -/
def IsBareVal (v : PyVal) : Prop :=
  (∀ a b, v ≠ .plist [a, b]) ∧ (∀ kvs, v = .pmap kvs → pyGet kvs "op" = none)

/-! ## Theorems -/

/-- `_previous_months` agrees with linearized month arithmetic: the `k`
entries are exactly the 1st through `k`-th months before the reference
month, so rollover is correct by construction. -/
theorem previousMonthsAux_eq (k : Nat) :
    ∀ (y m : Int), 1 ≤ m → m ≤ 12 →
      previousMonthsAux y m k =
        (List.range k).map (fun i => monthsBefore y m (i + 1)) := by
  induction k with
  | zero => intro y m _ _; rfl
  | succ k ih =>
      intro y m h1 h2
      rw [List.range_succ_eq_map, List.map_cons, List.map_map]
      unfold previousMonthsAux
      by_cases hm : m - 1 = 0
      · rw [if_pos hm]
        have hm1 : m = 1 := by omega
        subst hm1
        congr 1
        · simp only [monthsBefore, Prod.mk.injEq]
          omega
        · rw [ih (y - 1) 12 (by omega) (by omega)]
          apply List.map_congr_left
          intro i _
          simp only [Function.comp_apply, monthsBefore, Prod.mk.injEq]
          omega
      · rw [if_neg hm]
        congr 1
        · simp only [monthsBefore, Prod.mk.injEq]
          omega
        · rw [ih y (m - 1) (by omega) (by omega)]
          apply List.map_congr_left
          intro i _
          simp only [Function.comp_apply, monthsBefore, Prod.mk.injEq]
          omega

/-- C9: the database-type classifier `get_db_type` is a total function with
no failure path: it returns `postgres` exactly when the lowercased link
contains the marker substring `stg4b`, and `oracle` in every other case,
including the empty string. -/
theorem claim_C9 (s : String) :
    (get_db_type s = "postgres" ∨ get_db_type s = "oracle") ∧
    (get_db_type s = "postgres" ↔ containsSub (pyLower s) "stg4b" = true) ∧
    (containsSub (pyLower s) "stg4b" = false → get_db_type s = "oracle") := by
  unfold get_db_type
  by_cases h0 : s = ""
  · subst h0
    refine ⟨Or.inr rfl, ?_, fun _ => rfl⟩
    simp only [if_pos rfl]
    constructor
    · intro h; exact absurd h (by decide)
    · intro h; exact absurd h (by decide)
  · rw [if_neg h0]
    by_cases h1 : containsSub (pyLower s) "stg4b" = true
    · rw [if_pos h1]
      exact ⟨Or.inl rfl, ⟨fun _ => h1, fun _ => rfl⟩,
        fun h => absurd h1 (by simp [h])⟩
    · rw [if_neg h1]
      refine ⟨Or.inr rfl, ⟨fun h => absurd h (by decide), fun h => absurd h h1⟩,
        fun _ => rfl⟩

/-- C2: for every non-empty `dialing_db`, present (non-empty)
`reporting_db`, non-negative archive count and valid reference month, the
resolver returns the live table qualified with `dialing_db` first, then
exactly `archive_count` archive tables suffixed `MMYY` for the months
strictly preceding the reference month in descending recency, each
qualified with `reporting_db`, with December-to-January rollover
decrementing the year (via the linearized `monthsBefore`); in particular
the 2026-02-18 instance crosses the year boundary as specified. -/
theorem claim_C2 :
    (∀ (count : Nat) (d r : String) (today : Date),
       d ≠ "" → r ≠ "" → 1 ≤ today.month → today.month ≤ 12 →
       resolve_transaction_tables count d (some r) today =
         .ok (("LVOUSR.TRANSACTION@" ++ d) ::
           (List.range count).map (fun i =>
             "LVOUSR.TRANSACTION_" ++
             pad2 (monthsBefore today.year today.month (i + 1)).1 ++
             pad2 ((monthsBefore today.year today.month (i + 1)).2 % 100) ++
             "@" ++ r))) ∧
    resolve_transaction_tables 2 "D" (some "R") ⟨2026, 2, 18⟩ =
      .ok ["LVOUSR.TRANSACTION@D", "LVOUSR.TRANSACTION_0126@R",
           "LVOUSR.TRANSACTION_1225@R"] := by
  constructor
  · intro count d r today hd hr h1 h2
    unfold resolve_transaction_tables
    rw [if_neg hd]
    cases count with
    | zero => simp
    | succ k =>
        have hcond : (decide (r ≠ "") && decide (k + 1 > 0)) = true := by
          simp [hr]
        simp only [hcond, if_true]
        unfold previousMonths
        rw [previousMonthsAux_eq (k + 1) today.year today.month h1 h2,
          List.map_map]
        rfl
  · rfl

/-- Witness for C2: the general resolver characterization applied at a
concrete January date, exercising the year-decrementing rollover. -/
theorem claim_C2_witness :
    resolve_transaction_tables 1 "dial" (some "rep") ⟨2026, 1, 5⟩ =
      .ok ["LVOUSR.TRANSACTION@dial", "LVOUSR.TRANSACTION_1225@rep"] := by
  rw [claim_C2.1 1 "dial" "rep" ⟨2026, 1, 5⟩ (by decide) (by decide)
    (by decide) (by decide)]
  rfl

/-- C6 counterexample: the claim asserts a select call with `limit=0` fails
with an error, but `build_select` silently clamps it to 1 and succeeds. -/
theorem claim_C6_counterexample :
    build_select "contact" none none 0 0 none =
      .ok ⟨"SELECT * FROM lvousr.contact LIMIT %s OFFSET %s",
           [.pint 1, .pint 0]⟩ := rfl

/-- C6 (amended): `validate_limit` defaults an absent limit to
`DEFAULT_LIMIT`, caps valid limits at `MAX_ROWS` and rejects non-positive
limits; but the select builder itself silently clamps the requested limit
into `[1, 1000]` (so `limit=0` becomes 1 rather than failing). -/
theorem claim_C6 :
    (validate_limit none = .ok DEFAULT_LIMIT) ∧
    (∀ n : Int, 1 ≤ n → validate_limit (some n) = .ok (min n MAX_ROWS)) ∧
    (∀ n : Int, n < 1 →
       validate_limit (some n) = .error "Limit must be a positive integer") ∧
    (∀ table filters columns limit offset orderBy q,
       build_select table filters columns limit offset orderBy = .ok q →
       ∃ ps, q.params =
         ps ++ [.pint (max 1 (min limit 1000)), .pint (max 0 offset)]) := by
  refine ⟨rfl, ?_, ?_, ?_⟩
  · intro n hn
    simp only [validate_limit]
    rw [if_neg (by omega)]
  · intro n hn
    simp only [validate_limit]
    rw [if_pos hn]
  · intro table filters columns limit offset orderBy q h
    unfold build_select at h
    split at h
    · exact absurd h (by simp)
    · simp only [bind, Except.bind] at h
      cases hg : getTable table with
      | error e => rw [hg] at h; exact absurd h (by simp)
      | ok tn =>
          rw [hg] at h
          cases hc : validateColumnsQ table columns with
          | error e => rw [hc] at h; exact absurd h (by simp)
          | ok cols =>
              rw [hc] at h
              cases hf : validateFiltersQ table filters none with
              | error e => rw [hf] at h; exact absurd h (by simp)
              | ok wp =>
                  rw [hf] at h
                  cases ho : validateOrderByQ table orderBy with
                  | error e => rw [ho] at h; exact absurd h (by simp)
                  | ok os =>
                      rw [ho] at h
                      rw [Except.ok.injEq] at h
                      subst h
                      exact ⟨wp.2, rfl⟩

/-- Witness for C6: the cap example — a requested limit of 5000 passes
`validate_limit` (capped at `MAX_ROWS`) while the select builder clamps it
to the per-call cap of 1000. -/
theorem claim_C6_witness :
    validate_limit (some 5000) = .ok (min 5000 MAX_ROWS) ∧
    ∃ ps, ([PyVal.pint 1000, PyVal.pint 0] : List PyVal) =
      ps ++ [.pint (max 1 (min 5000 1000)), .pint (max 0 0)] := by
  refine ⟨claim_C6.2.1 5000 (by decide), ?_⟩
  have h := claim_C6.2.2.2 "contact" none none 5000 0 none
    ⟨"SELECT * FROM lvousr.contact LIMIT %s OFFSET %s",
     [.pint 1000, .pint 0]⟩ rfl
  exact h

/-- C8 counterexample: the claim asserts redaction is applied to every row
returned by the select tool, but `select_records` returns the fetched rows
unchanged — a backend row carrying an `ssn` value passes through
unredacted (while `redact_row` would have replaced it). -/
theorem claim_C8_counterexample :
    select_records (fun _ => [[("ssn", PyVal.pstr "123-45-6789")]])
      "contact" none none 100 0 none =
      .ok [[("ssn", PyVal.pstr "123-45-6789")]] ∧
    redact_row [("ssn", PyVal.pstr "123-45-6789")] ≠
      [("ssn", PyVal.pstr "123-45-6789")] := by
  refine ⟨rfl, ?_⟩
  intro h
  rw [show redact_row [("ssn", PyVal.pstr "123-45-6789")] =
    [("ssn", PyVal.pstr "***REDACTED***")] from rfl] at h
  injection h with h1 _
  injection h1 with _ h2
  injection h2 with h3
  exact absurd h3 (by decide)

/-- C8 (amended): `redact_row` replaces the value of every key whose
lowercase form is in the sensitive-column set with the redaction sentinel,
leaves every other key's value unchanged and preserves the key sequence —
but the select and joined-select tools return backend rows as fetched,
without applying this redaction. -/
theorem claim_C8 :
    (∀ row : Row, (redact_row row).map Prod.fst = row.map Prod.fst) ∧
    (∀ (row : Row) (k : String) (v : PyVal), (k, v) ∈ row →
       (REDACTED_COLUMNS.contains (pyLower k) = true →
          (k, PyVal.pstr "***REDACTED***") ∈ redact_row row) ∧
       (REDACTED_COLUMNS.contains (pyLower k) = false →
          (k, v) ∈ redact_row row)) ∧
    (∀ execute table filters columns limit offset orderBy q,
       build_select table filters columns limit offset orderBy = .ok q →
       select_records execute table filters columns limit offset orderBy =
         .ok (execute q)) ∧
    (∀ execute cf df cc dc limit offset orderBy q,
       build_contact_with_details_select cf df cc dc limit offset
         orderBy = .ok q →
       select_contacts_with_details execute cf df cc dc limit offset
         orderBy = .ok (execute q)) := by
  refine ⟨?_, ?_, ?_, ?_⟩
  · intro row
    unfold redact_row
    rw [List.map_map]
    rfl
  · intro row k v hmem
    constructor
    · intro hred
      have hred' : pyLower k ∈ REDACTED_COLUMNS := by simpa using hred
      exact List.mem_map.mpr ⟨(k, v), hmem, by simp [hred']⟩
    · intro hred
      have hred' : pyLower k ∉ REDACTED_COLUMNS := by simpa using hred
      exact List.mem_map.mpr ⟨(k, v), hmem, by simp [hred']⟩
  · intro execute table filters columns limit offset orderBy q h
    unfold select_records
    simp only [bind, Except.bind, h]
  · intro execute cf df cc dc limit offset orderBy q h
    unfold select_contacts_with_details
    simp only [bind, Except.bind, h]

/-- Witness for C8: the amended redaction/pass-through facts at a concrete
two-column row and the default contact select. -/
theorem claim_C8_witness :
    ((("ssn", PyVal.pstr "***REDACTED***") ∈
        redact_row [("ssn", PyVal.pstr "1"), ("name", PyVal.pstr "x")]) ∧
     (("name", PyVal.pstr "x") ∈
        redact_row [("ssn", PyVal.pstr "1"), ("name", PyVal.pstr "x")])) ∧
    select_records (fun _ => []) "contact" none none 100 0 none = .ok [] := by
  refine ⟨⟨?_, ?_⟩, ?_⟩
  · exact (claim_C8.2.1 [("ssn", PyVal.pstr "1"), ("name", PyVal.pstr "x")]
      "ssn" (PyVal.pstr "1") (by simp)).1 (by decide)
  · exact (claim_C8.2.1 [("ssn", PyVal.pstr "1"), ("name", PyVal.pstr "x")]
      "name" (PyVal.pstr "x") (by simp)).2 (by decide)
  · exact claim_C8.2.2.1 (fun _ => []) "contact" none none 100 0 none
      ⟨"SELECT * FROM lvousr.contact LIMIT %s OFFSET %s",
       [.pint 100, .pint 0]⟩ rfl

/-- C7: every routing failure of `create_campaign_from_query` — no client
row, a postgres-classified dialing database (reported with the explicit
unsupported-backend error), or no skills for the client — terminates with a
structured failure before any count, campaign creation or insert executes
(empty action trace). -/
theorem claim_C7 :
    (∀ (env : OracleEnv) (cid : Int) (qf : Filters) (cd : Option Filters)
       (mr : Option Int),
       env.clientLinks cid = none →
       create_campaign_from_query env cid qf cd mr =
         .ok ({ success := false,
                error := some ("No client found for client_id " ++
                  toString cid) }, [])) ∧
    (∀ (env : OracleEnv) (cid : Int) (qf : Filters) (cd : Option Filters)
       (mr : Option Int) (d : String) (r : Option String),
       env.clientLinks cid = some (d, r) → get_db_type d = "postgres" →
       create_campaign_from_query env cid qf cd mr =
         .ok ({ success := false,
                error := some
                  "create_campaign_from_query currently only supports Oracle databases" },
           [])) ∧
    (∀ (env : OracleEnv) (cid : Int) (qf : Filters) (cd : Option Filters)
       (mr : Option Int) (d : String) (r : Option String),
       env.clientLinks cid = some (d, r) → get_db_type d = "oracle" →
       (∀ kv ∈ qf, pyUpper kv.1 ≠ "CLIENT_ID") →
       env.skillsForClient cid = [] →
       create_campaign_from_query env cid qf cd mr =
         .ok ({ success := false,
                error := some ("No active skills found for client_id " ++
                  toString cid) }, [])) := by
  refine ⟨?_, ?_, ?_⟩
  · intro env cid qf cd mr h
    unfold create_campaign_from_query
    rw [h]
  · intro env cid qf cd mr d r h hdb
    unfold create_campaign_from_query
    rw [h]
    simp only [hdb]
    rw [if_pos (by decide)]
  · intro env cid qf cd mr d r h hdb hkey hskills
    unfold create_campaign_from_query
    rw [h]
    simp only [hdb]
    rw [if_neg (by decide)]
    have hfind : qf.find? (fun kv => pyUpper kv.1 = "CLIENT_ID") = none := by
      rw [List.find?_eq_none]
      intro kv hkv
      simpa using hkey kv hkv
    simp only [hfind, hskills, Option.map_none', Option.isNone_none,
      Bool.and_self, if_true]

/-- Witness for C7: the three routing failures at concrete environments
(missing client, `stg4b`-classified postgres link, and empty skill list). -/
theorem claim_C7_witness :
    create_campaign_from_query
      { clientLinks := fun _ => none, skillsForClient := fun _ => [],
        countFor := fun _ _ => 0, newCampaignId := 1, insertRowcount := 0,
        nowStamp := "t" } 7 [] none none =
      .ok ({ success := false,
             error := some "No client found for client_id 7" }, []) ∧
    create_campaign_from_query
      { clientLinks := fun _ => some ("lvstg4b", none),
        skillsForClient := fun _ => [], countFor := fun _ _ => 0,
        newCampaignId := 1, insertRowcount := 0, nowStamp := "t" }
      7 [] none none =
      .ok ({ success := false,
             error := some
               "create_campaign_from_query currently only supports Oracle databases" },
        []) ∧
    create_campaign_from_query
      { clientLinks := fun _ => some ("lvstg4a", some "rep"),
        skillsForClient := fun _ => [], countFor := fun _ _ => 0,
        newCampaignId := 1, insertRowcount := 0, nowStamp := "t" }
      7 [("OUTCOME", PyVal.pstr "FAILED")] none none =
      .ok ({ success := false,
             error := some "No active skills found for client_id 7" }, []) := by
  refine ⟨?_, ?_, ?_⟩
  · exact claim_C7.1 _ 7 [] none none rfl
  · exact claim_C7.2.1 _ 7 [] none none "lvstg4b" none rfl rfl
  · exact claim_C7.2.2 _ 7 [("OUTCOME", PyVal.pstr "FAILED")] none none
      "lvstg4a" (some "rep") rfl rfl
      (by intro kv hkv; simp at hkv; subst hkv; decide) rfl

/-- C1: whenever `create_campaign_from_query` reaches the candidate count
and that count evaluates to zero, the workflow reports a structured
failure with `records_found = 0` and performs no state change: no campaign
insert and no derived transaction insert appears in the action trace. -/
theorem claim_C1 (env : OracleEnv) (cid : Int) (qf : Filters)
    (cd : Option Filters) (mr : Option Int)
    (hzero : ∀ s p, env.countFor s p = 0)
    (res : CampaignResult) (acts : List DbAction)
    (h : create_campaign_from_query env cid qf cd mr = .ok (res, acts))
    (hcount : DbAction.countExec ∈ acts) :
    res.success = false ∧ res.records_found = some 0 ∧
    res.error =
      some "No records match the query criteria. Campaign not created." ∧
    res.campaign_id = none ∧ res.records_inserted = none ∧
    DbAction.campaignInsert ∉ acts ∧ DbAction.txInsert ∉ acts := by
  unfold create_campaign_from_query at h
  cases hl : env.clientLinks cid with
  | none =>
      rw [hl] at h
      rw [Except.ok.injEq, Prod.mk.injEq] at h
      obtain ⟨_, hacts⟩ := h
      subst hacts
      exact absurd hcount (by decide)
  | some pr =>
      obtain ⟨d, r⟩ := pr
      rw [hl] at h
      simp only at h
      split at h
      · rw [Except.ok.injEq, Prod.mk.injEq] at h
        obtain ⟨_, hacts⟩ := h
        subst hacts
        exact absurd hcount (by decide)
      · split at h
        · exact absurd h (by cases h)
        · rename_i filters skillOpt _
          split at h
          · rw [Except.ok.injEq, Prod.mk.injEq] at h
            obtain ⟨_, hacts⟩ := h
            subst hacts
            exact absurd hcount (by decide)
          · split at h
            · rw [Except.ok.injEq, Prod.mk.injEq] at h
              obtain ⟨_, hacts⟩ := h
              subst hacts
              exact absurd hcount (by decide)
            · rename_i countSql countParams _
              split at h
              · rw [Except.ok.injEq, Prod.mk.injEq] at h
                obtain ⟨hres, hacts⟩ := h
                subst hres hacts
                refine ⟨rfl, rfl, rfl, rfl, rfl, by decide, by decide⟩
              · rename_i hnonzero
                exact absurd (hzero countSql countParams) hnonzero

/-- Witness for C1: a concrete environment whose count evaluates to zero —
the workflow reports the failure and the trace holds only the count. -/
theorem claim_C1_witness :
    ({ success := false,
       error :=
         some "No records match the query criteria. Campaign not created.",
       records_found := some 0 } : CampaignResult).success = false ∧
    ({ success := false,
       error :=
         some "No records match the query criteria. Campaign not created.",
       records_found := some 0 } : CampaignResult).records_found = some 0 ∧
    ({ success := false,
       error :=
         some "No records match the query criteria. Campaign not created.",
       records_found := some 0 } : CampaignResult).error =
      some "No records match the query criteria. Campaign not created." ∧
    ({ success := false,
       error :=
         some "No records match the query criteria. Campaign not created.",
       records_found := some 0 } : CampaignResult).campaign_id = none ∧
    ({ success := false,
       error :=
         some "No records match the query criteria. Campaign not created.",
       records_found := some 0 } : CampaignResult).records_inserted = none ∧
    DbAction.campaignInsert ∉ [DbAction.countExec] ∧
    DbAction.txInsert ∉ [DbAction.countExec] :=
  claim_C1
    { clientLinks := fun _ => some ("lvstg4a", some "rep"),
      skillsForClient := fun _ => [PyVal.pint 7],
      countFor := fun _ _ => 0, newCampaignId := 1, insertRowcount := 0,
      nowStamp := "t" }
    42 [("OUTCOME", PyVal.pstr "FAILED")] none none (fun _ _ => rfl)
    _ _ rfl (by decide)

/-! ### Decimal rendering roundtrip (bind-name uniqueness) -/

/-- Appending one digit shifts the decimal value. -/
theorem digitsVal_append (xs : List Char) (c : Char) :
    digitsVal (xs ++ [c]) = digitsVal xs * 10 + (c.toNat - 48) := by
  unfold digitsVal
  rw [List.foldl_append]
  rfl

/-- Code point of a rendered digit. -/
theorem decimalDigit_toNat (d : Nat) (hd : d < 10) :
    (decimalDigit d).toNat = 48 + d := by
  interval_cases d <;> rfl

/-- The fuel-driven renderer roundtrips through `digitsVal`. -/
theorem digitsVal_natReprAux (fuel : Nat) :
    ∀ n : Nat, n ≤ fuel → digitsVal (natReprAux fuel n) = n := by
  induction fuel with
  | zero =>
      intro n h
      have : n = 0 := by omega
      subst this; rfl
  | succ fuel ih =>
      intro n h
      unfold natReprAux
      by_cases hn : n = 0
      · subst hn; rfl
      · rw [if_neg hn, digitsVal_append,
          ih (n / 10) (by omega),
          decimalDigit_toNat (n % 10) (Nat.mod_lt n (by norm_num))]
        omega

/-- `natRepr` roundtrips through `digitsVal`. -/
theorem digitsVal_natRepr (n : Nat) : digitsVal (natRepr n).data = n := by
  unfold natRepr
  by_cases hn : n = 0
  · subst hn; rfl
  · rw [if_neg hn]
    exact digitsVal_natReprAux n n le_rfl

/-- Decimal rendering is injective. -/
theorem natRepr_injective : Function.Injective natRepr := by
  intro a b h
  have h2 := congrArg (fun s => digitsVal s.data) h
  simpa [digitsVal_natRepr] using h2

/-- Distinct counters give distinct Oracle bind names. -/
theorem bindName_injective : Function.Injective bindName := by
  intro a b h
  unfold bindName at h
  have hd := congrArg String.data h
  rw [String.data_append, String.data_append] at hd
  have h2 : (natRepr a).data = (natRepr b).data :=
    (List.cons.injEq _ _ _ _ ▸ hd).2
  calc a = digitsVal (natRepr a).data := (digitsVal_natRepr a).symm
    _ = digitsVal (natRepr b).data := by rw [h2]
    _ = b := digitsVal_natRepr b

/-- No bind name collides with the `limit` parameter. -/
theorem bindName_ne_limit (n : Nat) : bindName n ≠ "limit" := by
  intro h
  have hd := congrArg String.data h
  unfold bindName at hd
  rw [String.data_append] at hd
  exact absurd ((List.cons.injEq _ _ _ _ ▸ hd).1) (by decide)

/-- The Oracle emitter allocates bind names `p{c}`, `p{c+1}`, … in order:
the emitted parameter keys are exactly the next `ps.length` names and the
counter advances by that amount. -/
theorem emitT_params_keys (c : Nat) (col op : String) (v : PyVal)
    (clause : String) (ps : List (String × PyVal)) (c' : Nat)
    (h : emitT c col op v = .ok (clause, ps, c')) :
    ps.map Prod.fst =
      (List.range ps.length).map (fun i => bindName (c + i)) ∧
    c' = c + ps.length := by
  unfold emitT at h
  by_cases hc1 : (op = "eq" || op = "=") = true
  · rw [if_pos hc1] at h
    simp only [Except.ok.injEq, Prod.mk.injEq] at h
    obtain ⟨-, h2, h3⟩ := h
    subst h2
    subst h3
    exact ⟨by simp [List.range_succ], by simp⟩
  · rw [if_neg hc1] at h
    by_cases hc2 : (op = "neq" || op = "!=" || op = "<>") = true
    · rw [if_pos hc2] at h
      simp only [Except.ok.injEq, Prod.mk.injEq] at h
      obtain ⟨-, h2, h3⟩ := h
      subst h2
      subst h3
      exact ⟨by simp [List.range_succ], by simp⟩
    · rw [if_neg hc2] at h
      by_cases hc3 : (op = "gt" || op = ">") = true
      · rw [if_pos hc3] at h
        simp only [Except.ok.injEq, Prod.mk.injEq] at h
        obtain ⟨-, h2, h3⟩ := h
        subst h2
        subst h3
        exact ⟨by simp [List.range_succ], by simp⟩
      · rw [if_neg hc3] at h
        by_cases hc4 : (op = "gte" || op = ">=") = true
        · rw [if_pos hc4] at h
          simp only [Except.ok.injEq, Prod.mk.injEq] at h
          obtain ⟨-, h2, h3⟩ := h
          subst h2
          subst h3
          exact ⟨by simp [List.range_succ], by simp⟩
        · rw [if_neg hc4] at h
          by_cases hc5 : (op = "lt" || op = "<") = true
          · rw [if_pos hc5] at h
            simp only [Except.ok.injEq, Prod.mk.injEq] at h
            obtain ⟨-, h2, h3⟩ := h
            subst h2
            subst h3
            exact ⟨by simp [List.range_succ], by simp⟩
          · rw [if_neg hc5] at h
            by_cases hc6 : (op = "lte" || op = "<=") = true
            · rw [if_pos hc6] at h
              simp only [Except.ok.injEq, Prod.mk.injEq] at h
              obtain ⟨-, h2, h3⟩ := h
              subst h2
              subst h3
              exact ⟨by simp [List.range_succ], by simp⟩
            · rw [if_neg hc6] at h
              by_cases hc7 : op = "like"
              · rw [if_pos hc7] at h
                simp only [Except.ok.injEq, Prod.mk.injEq] at h
                obtain ⟨-, h2, h3⟩ := h
                subst h2
                subst h3
                exact ⟨by simp [List.range_succ], by simp⟩
              · rw [if_neg hc7] at h
                by_cases hc8 : op = "not_like"
                · rw [if_pos hc8] at h
                  simp only [Except.ok.injEq, Prod.mk.injEq] at h
                  obtain ⟨-, h2, h3⟩ := h
                  subst h2
                  subst h3
                  exact ⟨by simp [List.range_succ], by simp⟩
                · rw [if_neg hc8] at h
                  by_cases hc9 : op = "ilike"
                  · rw [if_pos hc9] at h
                    simp only [Except.ok.injEq, Prod.mk.injEq] at h
                    obtain ⟨-, h2, h3⟩ := h
                    subst h2
                    subst h3
                    exact ⟨by simp [List.range_succ], by simp⟩
                  · rw [if_neg hc9] at h
                    by_cases hc10 : op = "not_ilike"
                    · rw [if_pos hc10] at h
                      simp only [Except.ok.injEq, Prod.mk.injEq] at h
                      obtain ⟨-, h2, h3⟩ := h
                      subst h2
                      subst h3
                      exact ⟨by simp [List.range_succ], by simp⟩
                    · rw [if_neg hc10] at h
                      by_cases hc11 : (op = "in" || op = "not_in") = true
                      · rw [if_pos hc11] at h
                        split at h
                        · -- plist arm: inner if on isEmpty
                          split at h
                          · exact Except.noConfusion h
                          · simp only [Except.ok.injEq, Prod.mk.injEq] at h
                            obtain ⟨-, h2, h3⟩ := h
                            subst h2
                            subst h3
                            constructor
                            · rw [List.map_fst_zip _ _ (by simp)]
                              congr 2
                              simp [List.length_zip]
                            · simp [List.length_zip]
                        · exact Except.noConfusion h
                      · rw [if_neg hc11] at h
                        by_cases hc12 : op = "between"
                        · rw [if_pos hc12] at h
                          split at h
                          · simp only [Except.ok.injEq, Prod.mk.injEq] at h
                            obtain ⟨-, h2, h3⟩ := h
                            subst h2
                            subst h3
                            exact ⟨by simp [List.range_succ], by simp⟩
                          · exact Except.noConfusion h
                        · rw [if_neg hc12] at h
                          by_cases hc13 : op = "is_null"
                          · rw [if_pos hc13] at h
                            simp only [Except.ok.injEq, Prod.mk.injEq] at h
                            obtain ⟨-, h2, h3⟩ := h
                            subst h2
                            subst h3
                            exact ⟨by simp, by simp⟩
                          · rw [if_neg hc13] at h
                            by_cases hc14 : op = "is_not_null"
                            · rw [if_pos hc14] at h
                              simp only [Except.ok.injEq, Prod.mk.injEq] at h
                              obtain ⟨-, h2, h3⟩ := h
                              subst h2
                              subst h3
                              exact ⟨by simp, by simp⟩
                            · rw [if_neg hc14] at h
                              exact Except.noConfusion h

/-- One Oracle filter-loop iteration allocates bind names sequentially. -/
theorem translateEntryT_params_keys (table : String) (c : Nat) (k : String)
    (v : PyVal) (clause : String) (ps : List (String × PyVal)) (c' : Nat)
    (h : translateEntryT table c k v = .ok (clause, ps, c')) :
    ps.map Prod.fst =
      (List.range ps.length).map (fun i => bindName (c + i)) ∧
    c' = c + ps.length := by
  unfold translateEntryT at h
  split at h
  simp only [] at h
  split at h
  · exact Except.noConfusion h
  · exact emitT_params_keys _ _ _ _ _ _ _ h

/-- The Oracle filter loop allocates bind names sequentially from its
starting counter: the parameter keys of a successful translation are
`p{c}`, `p{c+1}`, …, in order. -/
theorem goT_params_keys (table : String) (fs : Filters) :
    ∀ (c : Nat) (cs : List String) (ps : List (String × PyVal)),
      goT table c fs = .ok (cs, ps) →
      ps.map Prod.fst =
        (List.range ps.length).map (fun i => bindName (c + i)) := by
  induction fs with
  | nil =>
      intro c cs ps h
      unfold goT at h
      simp only [Except.ok.injEq, Prod.mk.injEq] at h
      obtain ⟨-, h2⟩ := h
      subst h2
      rfl
  | cons kv rest ih =>
      obtain ⟨k, v⟩ := kv
      intro c cs ps h
      unfold goT at h
      simp only [bind, Except.bind] at h
      cases he : translateEntryT table c k v with
      | error e => rw [he] at h; exact Except.noConfusion h
      | ok t3 =>
          obtain ⟨clause, ps1, c'⟩ := t3
          rw [he] at h
          simp only [] at h
          cases hg : goT table c' rest with
          | error e => rw [hg] at h; exact Except.noConfusion h
          | ok pr =>
              obtain ⟨cs2, ps2⟩ := pr
              rw [hg] at h
              simp only [Except.ok.injEq, Prod.mk.injEq] at h
              obtain ⟨-, h2⟩ := h
              subst h2
              obtain ⟨hk1, hc'⟩ :=
                translateEntryT_params_keys table c k v clause ps1 c' he
              have hk2 := ih c' cs2 ps2 hg
              rw [List.map_append, hk1, hk2, List.length_append,
                List.range_add, List.map_append, List.map_map]
              congr 1
              apply List.map_congr_left
              intro i _
              simp only [Function.comp_apply]
              congr 1
              omega

/-- A successful Oracle filter translation has pairwise-distinct bind names,
none of which is the reserved `limit` name. -/
theorem validateFiltersT_keys (filters : Option Filters) (table w : String)
    (ps : List (String × PyVal))
    (h : validateFiltersT filters table = .ok (w, ps)) :
    (ps.map Prod.fst).Nodup ∧ ∀ name ∈ ps.map Prod.fst, name ≠ "limit" := by
  have hkeys : ps.map Prod.fst =
      (List.range ps.length).map (fun i => bindName (1 + i)) := by
    unfold validateFiltersT at h
    cases filters with
    | none =>
        simp only [Except.ok.injEq, Prod.mk.injEq] at h
        obtain ⟨-, h2⟩ := h
        subst h2
        rfl
    | some fs =>
        simp only [] at h
        by_cases hfs : fs.isEmpty = true
        · rw [if_pos hfs] at h
          simp only [Except.ok.injEq, Prod.mk.injEq] at h
          obtain ⟨-, h2⟩ := h
          subst h2
          rfl
        · rw [if_neg hfs] at h
          simp only [bind, Except.bind] at h
          cases hg : goT table 1 fs with
          | error e => rw [hg] at h; exact Except.noConfusion h
          | ok pr =>
              obtain ⟨cs, ps0⟩ := pr
              rw [hg] at h
              simp only [Except.ok.injEq, Prod.mk.injEq] at h
              obtain ⟨-, h2⟩ := h
              subst h2
              exact goT_params_keys table fs 1 cs ps0 hg
  constructor
  · rw [hkeys]
    exact (List.nodup_range ps.length).map
      (fun a b hab => by
        have := bindName_injective hab
        omega)
  · intro name hmem
    rw [hkeys] at hmem
    obtain ⟨i, -, hi⟩ := List.mem_map.mp hmem
    rw [← hi]
    exact bindName_ne_limit (1 + i)

/-- C3: for every non-empty table list and validating filters, the Postgres
union builder's parameter list is the per-table predicate parameter list
repeated exactly once per unioned branch followed by the limit value, while
the Oracle union builder's named-parameter map contains the predicate binds
once — independently of the table count — plus the `limit` bind, with all
names pairwise distinct. -/
theorem claim_C3 :
    (∀ (tableNames : List String) (filters : Option Filters)
       (columns : Option (List String)) (limit : Int) (orderBy : Option String)
       (w : String) (ps : List PyVal) (osql : String),
       tableNames ≠ [] →
       validateFiltersPostgres filters "transaction" = .ok (w, ps) →
       validateOrderByPostgres orderBy "transaction" = .ok osql →
       ∃ sql, build_postgres_transaction_union tableNames filters columns
           limit orderBy =
         .ok ⟨sql, (List.replicate tableNames.length ps).flatten ++
           [.pint (max 1 (min limit 1000))]⟩) ∧
    (∀ (tableNames : List String) (filters : Option Filters)
       (columns : Option (List String)) (limit : Int) (orderBy : Option String)
       (w : String) (ps : List (String × PyVal)) (sc : List String)
       (osql : String),
       tableNames ≠ [] →
       validateFiltersT filters "transaction" = .ok (w, ps) →
       validateColumnsT columns "transaction" = .ok sc →
       validateOrderByT orderBy = .ok osql →
       (∃ sql, build_transaction_union tableNames filters columns limit
           orderBy =
         .ok ⟨sql, ps ++ [("limit", PyVal.pint (max 1 (min limit 1000)))]⟩) ∧
       ((ps ++ [("limit", PyVal.pint (max 1 (min limit 1000)))]).map
           Prod.fst).Nodup) := by
  constructor
  · intro tableNames filters columns limit orderBy w ps osql hne hf ho
    unfold build_postgres_transaction_union
    rw [if_neg (by simpa using hne)]
    simp only [bind, Except.bind, hf, ho, List.length_map]
    exact ⟨_, rfl⟩
  · intro tableNames filters columns limit orderBy w ps sc osql hne hf hc ho
    constructor
    · unfold build_transaction_union
      rw [if_neg (by simpa using hne)]
      simp only [bind, Except.bind, hf, hc, ho]
      exact ⟨_, rfl⟩
    · obtain ⟨hnodup, hlim⟩ := validateFiltersT_keys filters "transaction"
        w ps hf
      rw [List.map_append, List.nodup_append]
      refine ⟨hnodup, by simp, ?_⟩
      intro name hmem hmem2
      simp only [List.map_cons, List.map_nil, List.mem_singleton] at hmem2
      exact hlim name hmem hmem2

/-- Witness for C3: a one-filter query over two tables — the Postgres
parameters repeat per branch (plus the limit), the Oracle ones do not. -/
theorem claim_C3_witness :
    (∃ sql, build_postgres_transaction_union
        ["LVOUSR.TRANSACTION@D", "LVOUSR.TRANSACTION_0126@R"]
        (some [("account", PyVal.pstr "A1")]) none 10 none =
      .ok ⟨sql, (List.replicate 2 [PyVal.pstr "A1"]).flatten ++
        [.pint (max 1 (min 10 1000))]⟩) ∧
    ((∃ sql, build_transaction_union
        ["LVOUSR.TRANSACTION@D", "LVOUSR.TRANSACTION_0126@R"]
        (some [("account", PyVal.pstr "A1")]) none 10 none =
      .ok ⟨sql, [("p1", PyVal.pstr "A1")] ++
        [("limit", PyVal.pint (max 1 (min 10 1000)))]⟩) ∧
     ((([("p1", PyVal.pstr "A1")] ++
        [("limit", PyVal.pint (max 1 (min 10 1000)))]).map Prod.fst).Nodup)) := by
  constructor
  · exact claim_C3.1 ["LVOUSR.TRANSACTION@D", "LVOUSR.TRANSACTION_0126@R"]
      (some [("account", PyVal.pstr "A1")]) none 10 none
      " WHERE account = %s" [PyVal.pstr "A1"] "" (by simp) rfl rfl
  · exact claim_C3.2 ["LVOUSR.TRANSACTION@D", "LVOUSR.TRANSACTION_0126@R"]
      (some [("account", PyVal.pstr "A1")]) none 10 none
      " WHERE ACCOUNT = :p1" [("p1", PyVal.pstr "A1")] ["*"] ""
      (by simp) rfl rfl rfl

/-- An error propagates through `Except.bind`. -/
theorem bind_isOk_false {α β : Type} {e : Except String α}
    {f : α → Except String β} (h : e.isOk = false) :
    (e.bind f).isOk = false := by
  cases e with
  | error => rfl
  | ok a => exact Bool.noConfusion h

/-- A disallowed raw key anywhere in the filters makes the `query.py`
filter loop fail. -/
theorem goQ_isOk_false (allowed : List String) (table : String)
    (alias? : Option String) (fs : Filters)
    (hbad : ∃ kv ∈ fs, allowed.contains kv.1 = false) :
    (goQ allowed table alias? fs).isOk = false := by
  induction fs with
  | nil => simp at hbad
  | cons kv rest ih =>
      obtain ⟨bad, hmem, hbadc⟩ := hbad
      unfold goQ
      simp only [bind, Except.bind]
      rcases List.mem_cons.mp hmem with heq | hmem'
      · subst heq
        have he : translateEntryQ allowed table alias? bad.1 bad.2 =
            .error ("Invalid filter column for " ++ table ++ ": " ++ bad.1) := by
          unfold translateEntryQ
          rw [hbadc]
          rfl
        rw [he]
        rfl
      · cases he : translateEntryQ allowed table alias? kv.1 kv.2 with
        | error e => rfl
        | ok cp =>
            have hrest := ih ⟨bad, hmem', hbadc⟩
            cases hg : goQ allowed table alias? rest with
            | error e => rfl
            | ok pr => rw [hg] at hrest; exact Bool.noConfusion hrest

/-- A disallowed normalized key anywhere in the filters makes the Oracle
transaction filter loop fail. -/
theorem goT_isOk_false (table : String) (fs : Filters) :
    ∀ c : Nat,
      (∃ kv ∈ fs,
        (allowedColsT table).contains (normalizeIdentifier kv.1) = false) →
      (goT table c fs).isOk = false := by
  induction fs with
  | nil => intro c hbad; simp at hbad
  | cons kv rest ih =>
      intro c hbad
      obtain ⟨bad, hmem, hbadc⟩ := hbad
      unfold goT
      simp only [bind, Except.bind]
      rcases List.mem_cons.mp hmem with heq | hmem'
      · subst heq
        have hnm : normalizeIdentifier bad.1 ∉ allowedColsT table := by
          simpa using hbadc
        have he : translateEntryT table c bad.1 bad.2 =
            .error ("Invalid filter column for " ++ table ++ ": " ++
              normalizeIdentifier bad.1) := by
          simp [translateEntryT, hnm]
        rw [he]
        rfl
      · cases he : translateEntryT table c kv.1 kv.2 with
        | error e => rfl
        | ok t3 =>
            obtain ⟨cl, ps1, c'⟩ := t3
            simp only []
            have hrest := ih c' ⟨bad, hmem', hbadc⟩
            cases hg : goT table c' rest with
            | error e => rfl
            | ok pr => rw [hg] at hrest; exact Bool.noConfusion hrest

/-- A disallowed lowercased key anywhere in the filters makes the Postgres
transaction filter loop fail. -/
theorem goP_isOk_false (table : String) (fs : Filters)
    (hbad : ∃ kv ∈ fs,
      (allowedColsP table).contains (pyLower (pyStrip kv.1)) = false) :
    (goP table fs).isOk = false := by
  induction fs with
  | nil => simp at hbad
  | cons kv rest ih =>
      obtain ⟨bad, hmem, hbadc⟩ := hbad
      unfold goP
      simp only [bind, Except.bind]
      rcases List.mem_cons.mp hmem with heq | hmem'
      · subst heq
        have hnm : pyLower (pyStrip bad.1) ∉ allowedColsP table := by
          simpa using hbadc
        have he : translateEntryP table bad.1 bad.2 =
            .error ("Invalid filter column for " ++ table ++ ": " ++
              pyLower (pyStrip bad.1)) := by
          simp [translateEntryP, hnm]
        rw [he]
        rfl
      · cases he : translateEntryP table kv.1 kv.2 with
        | error e => rfl
        | ok cp =>
            have hrest := ih ⟨bad, hmem', hbadc⟩
            cases hg : goP table rest with
            | error e => rfl
            | ok pr => rw [hg] at hrest; exact Bool.noConfusion hrest

/-- A disallowed (stripped) projected column makes `query._validate_columns`
fail. -/
theorem validateColumnsQ_isOk_false (table tname : String)
    (allowed : List String) (cols : List String)
    (ht : TABLES table = some (tname, allowed))
    (hbad : ∃ col ∈ cols, allowed.contains (pyStrip col) = false) :
    (validateColumnsQ table (some cols)).isOk = false := by
  obtain ⟨bad, hmem, hbadc⟩ := hbad
  unfold validateColumnsQ getTable
  rw [ht]
  simp only [bind, Except.bind]
  rw [if_neg (by rw [List.isEmpty_iff]; exact List.ne_nil_of_mem hmem)]
  have hinv2 : ((cols.map pyStrip).filter
      (fun c => !allowed.contains c)).isEmpty = false := by
    cases hi : ((cols.map pyStrip).filter
        (fun c => !allowed.contains c)).isEmpty with
    | false => rfl
    | true =>
        rw [List.isEmpty_iff, List.filter_eq_nil_iff] at hi
        exact absurd (show (!allowed.contains (pyStrip bad)) = true by
          rw [hbadc]; rfl)
          (hi (pyStrip bad) (List.mem_map_of_mem _ hmem))
  simp only [hinv2]
  rfl

/-- A disallowed (normalized) projected column makes
`transaction._validate_columns` fail. -/
theorem validateColumnsT_isOk_false (table : String) (cols : List String)
    (hbad : ∃ col ∈ cols,
      (allowedColsT table).contains (normalizeIdentifier col) = false) :
    (validateColumnsT (some cols) table).isOk = false := by
  obtain ⟨bad, hmem, hbadc⟩ := hbad
  unfold validateColumnsT
  simp only []
  rw [if_neg (by rw [List.isEmpty_iff]; exact List.ne_nil_of_mem hmem)]
  have hinv2 : ((cols.map normalizeIdentifier).filter
      (fun c => !(allowedColsT table).contains c)).isEmpty = false := by
    cases hi : ((cols.map normalizeIdentifier).filter
        (fun c => !(allowedColsT table).contains c)).isEmpty with
    | false => rfl
    | true =>
        rw [List.isEmpty_iff, List.filter_eq_nil_iff] at hi
        exact absurd (show (!(allowedColsT table).contains
            (normalizeIdentifier bad)) = true by rw [hbadc]; rfl)
          (hi (normalizeIdentifier bad) (List.mem_map_of_mem _ hmem))
  simp only [hinv2]
  rfl

/-- A disallowed filter key fails the whole `query.py` filter validation. -/
theorem validateFiltersQ_isOk_false (table tname : String)
    (allowed : List String) (alias? : Option String) (fs : Filters)
    (ht : TABLES table = some (tname, allowed))
    (hbad : ∃ kv ∈ fs, allowed.contains kv.1 = false) :
    (validateFiltersQ table (some fs) alias?).isOk = false := by
  obtain ⟨bad, hmem, hbadc⟩ := hbad
  unfold validateFiltersQ
  simp only []
  rw [if_neg (by rw [List.isEmpty_iff]; exact List.ne_nil_of_mem hmem)]
  simp only [bind, Except.bind]
  unfold getTable
  rw [ht]
  simp only []
  cases hg : goQ allowed table alias? fs with
  | error e => rfl
  | ok pr =>
      have hf := goQ_isOk_false allowed table alias? fs ⟨bad, hmem, hbadc⟩
      rw [hg] at hf
      exact Bool.noConfusion hf

/-- A disallowed filter key fails the Oracle transaction filter validation. -/
theorem validateFiltersT_isOk_false (table : String) (fs : Filters)
    (hbad : ∃ kv ∈ fs,
      (allowedColsT table).contains (normalizeIdentifier kv.1) = false) :
    (validateFiltersT (some fs) table).isOk = false := by
  obtain ⟨bad, hmem, hbadc⟩ := hbad
  unfold validateFiltersT
  simp only []
  rw [if_neg (by rw [List.isEmpty_iff]; exact List.ne_nil_of_mem hmem)]
  simp only [bind, Except.bind]
  cases hg : goT table 1 fs with
  | error e => rfl
  | ok pr =>
      have hf := goT_isOk_false table fs 1 ⟨bad, hmem, hbadc⟩
      rw [hg] at hf
      exact Bool.noConfusion hf

/-- A disallowed filter key fails the Postgres transaction filter
validation. -/
theorem validateFiltersPostgres_isOk_false (table : String) (fs : Filters)
    (hbad : ∃ kv ∈ fs,
      (allowedColsP table).contains (pyLower (pyStrip kv.1)) = false) :
    (validateFiltersPostgres (some fs) table).isOk = false := by
  obtain ⟨bad, hmem, hbadc⟩ := hbad
  unfold validateFiltersPostgres
  simp only []
  rw [if_neg (by rw [List.isEmpty_iff]; exact List.ne_nil_of_mem hmem)]
  simp only [bind, Except.bind]
  cases hg : goP table fs with
  | error e => rfl
  | ok pr =>
      have hf := goP_isOk_false table fs ⟨bad, hmem, hbadc⟩
      rw [hg] at hf
      exact Bool.noConfusion hf

/-- A disallowed order-by column fails `query._validate_order_by`. -/
theorem validateOrderByQ_isOk_false (table tname : String)
    (allowed : List String) (ob column : String) (rest : List String)
    (ht : TABLES table = some (tname, allowed))
    (hsplit : pySplitWs ob = column :: rest)
    (hbad : allowed.contains column = false) :
    (validateOrderByQ table (some ob)).isOk = false := by
  unfold validateOrderByQ
  simp only []
  have hne : ¬ob = "" := by
    intro h
    rw [h] at hsplit
    exact List.noConfusion hsplit
  rw [if_neg hne, hsplit]
  simp only [bind, Except.bind]
  unfold getTable
  rw [ht]
  simp only [hbad]
  rfl

/-- A disallowed order-by column fails `transaction._validate_order_by`. -/
theorem validateOrderByT_isOk_false (ob column : String) (rest : List String)
    (hsplit : pySplitWs ob = column :: rest)
    (hbad : TRANSACTION_COLUMNS.contains (normalizeIdentifier column) = false) :
    (validateOrderByT (some ob)).isOk = false := by
  unfold validateOrderByT
  simp only []
  have hne : ¬ob = "" := by
    intro h
    rw [h] at hsplit
    exact List.noConfusion hsplit
  rw [if_neg hne, hsplit]
  simp only [hbad]
  rfl

/-- A disallowed order-by column fails
`transaction._validate_order_by_postgres`. -/
theorem validateOrderByPostgres_isOk_false (table ob column : String)
    (rest : List String) (hsplit : pySplitWs ob = column :: rest)
    (hbad : (allowedColsP table).contains (pyLower column) = false) :
    (validateOrderByPostgres (some ob) table).isOk = false := by
  unfold validateOrderByPostgres
  simp only []
  have hne : ¬ob = "" := by
    intro h
    rw [h] at hsplit
    exact List.noConfusion hsplit
  rw [if_neg hne, hsplit]
  simp only [hbad]
  rfl

/-- C5 counterexample: the claim asserts every builder rejects a projected
column outside the allowed set, but the Postgres union builder accepts an
arbitrary projected column (it only lowercases it) and interpolates it into
the SQL. -/
theorem claim_C5_counterexample :
    (allowedColsP "transaction").contains "not_a_column" = false ∧
    build_postgres_transaction_union ["LVOUSR.TRANSACTION@D"] none
      (some ["NOT_A_COLUMN"]) 100 none =
      .ok ⟨"SELECT * FROM (SELECT not_a_column FROM lvousr.transaction) AS combined LIMIT %s",
           [.pint 100]⟩ :=
  ⟨rfl, rfl⟩

/-- C5 (amended): the single-table select, count, joined select and Oracle
union builders raise a local validation error (returning no built query) on
any disallowed table, projected column, filter column or order-by column;
the Postgres union builder does so for filter and order-by columns but
passes projected columns through unvalidated. -/
theorem claim_C5 :
    (∀ table filters columns limit offset orderBy,
       TABLES table = none →
       (build_select table filters columns limit offset orderBy).isOk =
         false) ∧
    (∀ table tname allowed filters cols limit offset orderBy,
       TABLES table = some (tname, allowed) →
       (∃ col ∈ cols, allowed.contains (pyStrip col) = false) →
       (build_select table filters (some cols) limit offset orderBy).isOk =
         false) ∧
    (∀ table tname allowed fs columns limit offset orderBy,
       TABLES table = some (tname, allowed) →
       (∃ kv ∈ fs, allowed.contains kv.1 = false) →
       (build_select table (some fs) columns limit offset orderBy).isOk =
         false) ∧
    (∀ table tname allowed filters columns limit offset ob column rest,
       TABLES table = some (tname, allowed) →
       pySplitWs ob = column :: rest →
       allowed.contains column = false →
       (build_select table filters columns limit offset (some ob)).isOk =
         false) ∧
    (∀ table filters,
       TABLES table = none → (build_count table filters).isOk = false) ∧
    (∀ table tname allowed fs,
       TABLES table = some (tname, allowed) →
       (∃ kv ∈ fs, allowed.contains kv.1 = false) →
       (build_count table (some fs)).isOk = false) ∧
    (∀ cf df ccols dcols limit offset orderBy,
       (∃ col ∈ ccols, CONTACT_COLUMNS.contains (pyStrip col) = false) →
       (build_contact_with_details_select cf df (some ccols) dcols limit
         offset orderBy).isOk = false) ∧
    (∀ cf df ccols dcols limit offset orderBy,
       (∃ col ∈ dcols, CONTACT_DETAILS_COLUMNS.contains (pyStrip col) =
         false) →
       (build_contact_with_details_select cf df ccols (some dcols) limit
         offset orderBy).isOk = false) ∧
    (∀ cfs df ccols dcols limit offset orderBy,
       (∃ kv ∈ cfs, CONTACT_COLUMNS.contains kv.1 = false) →
       (build_contact_with_details_select (some cfs) df ccols dcols limit
         offset orderBy).isOk = false) ∧
    (∀ cf dfs ccols dcols limit offset orderBy,
       (∃ kv ∈ dfs, CONTACT_DETAILS_COLUMNS.contains kv.1 = false) →
       (build_contact_with_details_select cf (some dfs) ccols dcols limit
         offset orderBy).isOk = false) ∧
    (∀ cf df ccols dcols limit offset ob column rest,
       pySplitWs ob = column :: rest →
       CONTACT_COLUMNS.contains column = false →
       (build_contact_with_details_select cf df ccols dcols limit offset
         (some ob)).isOk = false) ∧
    (∀ tables fs columns limit orderBy,
       (∃ kv ∈ fs,
         TRANSACTION_COLUMNS.contains (normalizeIdentifier kv.1) = false) →
       (build_transaction_union tables (some fs) columns limit
         orderBy).isOk = false) ∧
    (∀ tables filters cols limit orderBy,
       (∃ col ∈ cols,
         TRANSACTION_COLUMNS.contains (normalizeIdentifier col) = false) →
       (build_transaction_union tables filters (some cols) limit
         orderBy).isOk = false) ∧
    (∀ tables filters columns limit ob column rest,
       pySplitWs ob = column :: rest →
       TRANSACTION_COLUMNS.contains (normalizeIdentifier column) = false →
       (build_transaction_union tables filters columns limit
         (some ob)).isOk = false) ∧
    (∀ tables fs columns limit orderBy,
       (∃ kv ∈ fs, (TRANSACTION_COLUMNS.map pyLower).contains
         (pyLower (pyStrip kv.1)) = false) →
       (build_postgres_transaction_union tables (some fs) columns limit
         orderBy).isOk = false) ∧
    (∀ tables filters columns limit ob column rest,
       pySplitWs ob = column :: rest →
       (TRANSACTION_COLUMNS.map pyLower).contains (pyLower column) = false →
       (build_postgres_transaction_union tables filters columns limit
         (some ob)).isOk = false) ∧
    (∀ tables cols, tables ≠ [] →
       (build_postgres_transaction_union tables none (some cols) 100
         none).isOk = true) := by
  have hcontact : TABLES "contact" =
      some ("lvousr.contact", CONTACT_COLUMNS) := rfl
  have hdetails : TABLES "contact_details" =
      some ("lvousr.contact_details", CONTACT_DETAILS_COLUMNS) := rfl
  refine ⟨?_, ?_, ?_, ?_, ?_, ?_, ?_, ?_, ?_, ?_, ?_, ?_, ?_, ?_, ?_, ?_, ?_⟩
  · intro table filters columns limit offset orderBy ht
    unfold build_select
    rw [if_pos (by simp [ht])]
    rfl
  · intro table tname allowed filters cols limit offset orderBy ht hbad
    unfold build_select
    rw [if_neg (by simp [ht])]
    simp only [bind, Except.bind]
    unfold getTable
    rw [ht]
    simp only []
    cases hc : validateColumnsQ table (some cols) with
    | error e => rfl
    | ok v =>
        have hx := validateColumnsQ_isOk_false table tname allowed cols ht hbad
        rw [hc] at hx
        exact Bool.noConfusion hx
  · intro table tname allowed fs columns limit offset orderBy ht hbad
    unfold build_select
    rw [if_neg (by simp [ht])]
    simp only [bind, Except.bind]
    unfold getTable
    rw [ht]
    simp only []
    cases hc : validateColumnsQ table columns with
    | error e => rfl
    | ok v =>
        cases hf : validateFiltersQ table (some fs) none with
        | error e => rfl
        | ok wp =>
            have hx := validateFiltersQ_isOk_false table tname allowed none
              fs ht hbad
            rw [hf] at hx
            exact Bool.noConfusion hx
  · intro table tname allowed filters columns limit offset ob column rest ht
      hsplit hbad
    unfold build_select
    rw [if_neg (by simp [ht])]
    simp only [bind, Except.bind]
    unfold getTable
    rw [ht]
    simp only []
    cases hc : validateColumnsQ table columns with
    | error e => rfl
    | ok v =>
        cases hf : validateFiltersQ table filters none with
        | error e => rfl
        | ok wp =>
            cases ho : validateOrderByQ table (some ob) with
            | error e => rfl
            | ok os =>
                have hx := validateOrderByQ_isOk_false table tname allowed
                  ob column rest ht hsplit hbad
                rw [ho] at hx
                exact Bool.noConfusion hx
  · intro table filters ht
    unfold build_count
    rw [if_pos (by simp [ht])]
    rfl
  · intro table tname allowed fs ht hbad
    unfold build_count
    rw [if_neg (by simp [ht])]
    simp only [bind, Except.bind]
    unfold getTable
    rw [ht]
    simp only []
    cases hf : validateFiltersQ table (some fs) none with
    | error e => rfl
    | ok wp =>
        have hx := validateFiltersQ_isOk_false table tname allowed none fs
          ht hbad
        rw [hf] at hx
        exact Bool.noConfusion hx
  · intro cf df ccols dcols limit offset orderBy hbad
    unfold build_contact_with_details_select
    simp only [bind, Except.bind]
    cases hc : validateColumnsQ "contact" (some ccols) with
    | error e => rfl
    | ok v =>
        have hx := validateColumnsQ_isOk_false "contact" "lvousr.contact"
          CONTACT_COLUMNS ccols hcontact hbad
        rw [hc] at hx
        exact Bool.noConfusion hx
  · intro cf df ccols dcols limit offset orderBy hbad
    unfold build_contact_with_details_select
    simp only [bind, Except.bind]
    cases hc : validateColumnsQ "contact" ccols with
    | error e => rfl
    | ok v =>
        cases hd : validateColumnsQ "contact_details" (some dcols) with
        | error e => rfl
        | ok v2 =>
            have hx := validateColumnsQ_isOk_false "contact_details"
              "lvousr.contact_details" CONTACT_DETAILS_COLUMNS dcols
              hdetails hbad
            rw [hd] at hx
            exact Bool.noConfusion hx
  · intro cfs df ccols dcols limit offset orderBy hbad
    unfold build_contact_with_details_select
    simp only [bind, Except.bind]
    cases hc : validateColumnsQ "contact" ccols with
    | error e => rfl
    | ok v =>
        cases hd : validateColumnsQ "contact_details" dcols with
        | error e => rfl
        | ok v2 =>
            cases hf : validateFiltersQ "contact" (some cfs) (some "c") with
            | error e => rfl
            | ok wp =>
                have hx := validateFiltersQ_isOk_false "contact"
                  "lvousr.contact" CONTACT_COLUMNS (some "c") cfs hcontact
                  hbad
                rw [hf] at hx
                exact Bool.noConfusion hx
  · intro cf dfs ccols dcols limit offset orderBy hbad
    unfold build_contact_with_details_select
    simp only [bind, Except.bind]
    cases hc : validateColumnsQ "contact" ccols with
    | error e => rfl
    | ok v =>
        cases hd : validateColumnsQ "contact_details" dcols with
        | error e => rfl
        | ok v2 =>
            cases hf : validateFiltersQ "contact" cf (some "c") with
            | error e => rfl
            | ok wp =>
                cases hg : validateFiltersQ "contact_details" (some dfs)
                    (some "d") with
                | error e => rfl
                | ok wp2 =>
                    have hx := validateFiltersQ_isOk_false "contact_details"
                      "lvousr.contact_details" CONTACT_DETAILS_COLUMNS
                      (some "d") dfs hdetails hbad
                    rw [hg] at hx
                    exact Bool.noConfusion hx
  · intro cf df ccols dcols limit offset ob column rest hsplit hbad
    unfold build_contact_with_details_select
    simp only [bind, Except.bind]
    cases hc : validateColumnsQ "contact" ccols with
    | error e => rfl
    | ok v =>
        cases hd : validateColumnsQ "contact_details" dcols with
        | error e => rfl
        | ok v2 =>
            cases hf : validateFiltersQ "contact" cf (some "c") with
            | error e => rfl
            | ok wp =>
                cases hg : validateFiltersQ "contact_details" df
                    (some "d") with
                | error e => rfl
                | ok wp2 =>
                    have hne : ¬ob = "" := by
                      intro h
                      rw [h] at hsplit
                      exact List.noConfusion hsplit
                    simp only []
                    rw [if_neg hne, hsplit]
                    simp only [hbad]
                    rfl
  · intro tables fs columns limit orderBy hbad
    unfold build_transaction_union
    by_cases hte : tables.isEmpty = true
    · rw [if_pos hte]
      rfl
    · rw [if_neg hte]
      simp only [bind, Except.bind]
      cases hc : validateColumnsT columns "transaction" with
      | error e => rfl
      | ok v =>
          cases hf : validateFiltersT (some fs) "transaction" with
          | error e => rfl
          | ok wp =>
              have hx := validateFiltersT_isOk_false "transaction" fs hbad
              rw [hf] at hx
              exact Bool.noConfusion hx
  · intro tables filters cols limit orderBy hbad
    unfold build_transaction_union
    by_cases hte : tables.isEmpty = true
    · rw [if_pos hte]
      rfl
    · rw [if_neg hte]
      simp only [bind, Except.bind]
      cases hc : validateColumnsT (some cols) "transaction" with
      | error e => rfl
      | ok v =>
          have hx := validateColumnsT_isOk_false "transaction" cols hbad
          rw [hc] at hx
          exact Bool.noConfusion hx
  · intro tables filters columns limit ob column rest hsplit hbad
    unfold build_transaction_union
    by_cases hte : tables.isEmpty = true
    · rw [if_pos hte]
      rfl
    · rw [if_neg hte]
      simp only [bind, Except.bind]
      cases hc : validateColumnsT columns "transaction" with
      | error e => rfl
      | ok v =>
          cases hf : validateFiltersT filters "transaction" with
          | error e => rfl
          | ok wp =>
              cases ho : validateOrderByT (some ob) with
              | error e => rfl
              | ok os =>
                  have hx := validateOrderByT_isOk_false ob column rest
                    hsplit hbad
                  rw [ho] at hx
                  exact Bool.noConfusion hx
  · intro tables fs columns limit orderBy hbad
    unfold build_postgres_transaction_union
    by_cases hte : tables.isEmpty = true
    · rw [if_pos hte]
      rfl
    · rw [if_neg hte]
      simp only [bind, Except.bind]
      cases hf : validateFiltersPostgres (some fs) "transaction" with
      | error e => rfl
      | ok wp =>
          have hx := validateFiltersPostgres_isOk_false "transaction" fs hbad
          rw [hf] at hx
          exact Bool.noConfusion hx
  · intro tables filters columns limit ob column rest hsplit hbad
    unfold build_postgres_transaction_union
    by_cases hte : tables.isEmpty = true
    · rw [if_pos hte]
      rfl
    · rw [if_neg hte]
      simp only [bind, Except.bind]
      cases hf : validateFiltersPostgres filters "transaction" with
      | error e => rfl
      | ok wp =>
          cases ho : validateOrderByPostgres (some ob) "transaction" with
          | error e => rfl
          | ok os =>
              have hx := validateOrderByPostgres_isOk_false "transaction"
                ob column rest hsplit hbad
              rw [ho] at hx
              exact Bool.noConfusion hx
  · intro tables cols htne
    unfold build_postgres_transaction_union
    rw [if_neg (by rw [List.isEmpty_iff]; exact htne)]
    rfl

/-- Witness for C5: concrete disallowed inputs rejected by each builder,
and the Postgres union accepting an unvalidated projected column. -/
theorem claim_C5_witness :
    (build_select "nope" none none 100 0 none).isOk = false ∧
    (build_select "contact" none (some ["not_a_col"]) 100 0 none).isOk =
      false ∧
    (build_count "contact" (some [("evil", PyVal.pint 1)])).isOk = false ∧
    (build_transaction_union ["T"] none (some ["EVIL_COL"]) 100
      none).isOk = false ∧
    (build_postgres_transaction_union ["T"] (some [("evil", PyVal.pint 1)])
      none 100 none).isOk = false ∧
    (build_postgres_transaction_union ["T"] none (some ["ANYTHING"]) 100
      none).isOk = true := by
  refine ⟨?_, ?_, ?_, ?_, ?_, ?_⟩
  · exact claim_C5.1 "nope" none none 100 0 none rfl
  · exact claim_C5.2.1 "contact" "lvousr.contact" CONTACT_COLUMNS none
      ["not_a_col"] 100 0 none rfl ⟨"not_a_col", by simp, by rfl⟩
  · exact claim_C5.2.2.2.2.2.1 "contact" "lvousr.contact" CONTACT_COLUMNS
      [("evil", PyVal.pint 1)] rfl ⟨("evil", PyVal.pint 1), by simp, by rfl⟩
  · exact claim_C5.2.2.2.2.2.2.2.2.2.2.2.2.1 ["T"] none ["EVIL_COL"] 100
      none ⟨"EVIL_COL", by simp, by rfl⟩
  · exact claim_C5.2.2.2.2.2.2.2.2.2.2.2.2.2.2.1 ["T"]
      [("evil", PyVal.pint 1)] none 100 none
      ⟨("evil", PyVal.pint 1), by simp, by rfl⟩
  · exact claim_C5.2.2.2.2.2.2.2.2.2.2.2.2.2.2.2.2 ["T"] ["ANYTHING"]
      (by simp)

/-- The `query.py` filter loop emits exactly one clause per entry. -/
theorem goQ_length (allowed : List String) (table : String)
    (alias? : Option String) (fs : Filters) :
    ∀ (cs : List String) (ps : List PyVal),
      goQ allowed table alias? fs = .ok (cs, ps) → cs.length = fs.length := by
  induction fs with
  | nil =>
      intro cs ps h
      unfold goQ at h
      simp only [Except.ok.injEq, Prod.mk.injEq] at h
      obtain ⟨h1, -⟩ := h
      subst h1
      rfl
  | cons kv rest ih =>
      intro cs ps h
      unfold goQ at h
      simp only [bind, Except.bind] at h
      cases he : translateEntryQ allowed table alias? kv.1 kv.2 with
      | error e => rw [he] at h; exact Except.noConfusion h
      | ok cp =>
          rw [he] at h
          simp only [] at h
          cases hg : goQ allowed table alias? rest with
          | error e => rw [hg] at h; exact Except.noConfusion h
          | ok pr =>
              rw [hg] at h
              simp only [Except.ok.injEq, Prod.mk.injEq] at h
              obtain ⟨h1, -⟩ := h
              subst h1
              simp [ih pr.1 pr.2 (by rw [hg])]

/-- The Oracle transaction filter loop emits exactly one clause per entry. -/
theorem goT_length (table : String) (fs : Filters) :
    ∀ (c : Nat) (cs : List String) (ps : List (String × PyVal)),
      goT table c fs = .ok (cs, ps) → cs.length = fs.length := by
  induction fs with
  | nil =>
      intro c cs ps h
      unfold goT at h
      simp only [Except.ok.injEq, Prod.mk.injEq] at h
      obtain ⟨h1, -⟩ := h
      subst h1
      rfl
  | cons kv rest ih =>
      intro c cs ps h
      unfold goT at h
      simp only [bind, Except.bind] at h
      cases he : translateEntryT table c kv.1 kv.2 with
      | error e => rw [he] at h; exact Except.noConfusion h
      | ok t3 =>
          obtain ⟨cl, ps1, c'⟩ := t3
          rw [he] at h
          simp only [] at h
          cases hg : goT table c' rest with
          | error e => rw [hg] at h; exact Except.noConfusion h
          | ok pr =>
              rw [hg] at h
              simp only [Except.ok.injEq, Prod.mk.injEq] at h
              obtain ⟨h1, -⟩ := h
              subst h1
              simp [ih c' pr.1 pr.2 (by rw [hg])]

/-- The Postgres transaction filter loop emits exactly one clause per
entry. -/
theorem goP_length (table : String) (fs : Filters) :
    ∀ (cs : List String) (ps : List PyVal),
      goP table fs = .ok (cs, ps) → cs.length = fs.length := by
  induction fs with
  | nil =>
      intro cs ps h
      unfold goP at h
      simp only [Except.ok.injEq, Prod.mk.injEq] at h
      obtain ⟨h1, -⟩ := h
      subst h1
      rfl
  | cons kv rest ih =>
      intro cs ps h
      unfold goP at h
      simp only [bind, Except.bind] at h
      cases he : translateEntryP table kv.1 kv.2 with
      | error e => rw [he] at h; exact Except.noConfusion h
      | ok cp =>
          rw [he] at h
          simp only [] at h
          cases hg : goP table rest with
          | error e => rw [hg] at h; exact Except.noConfusion h
          | ok pr =>
              rw [hg] at h
              simp only [Except.ok.injEq, Prod.mk.injEq] at h
              obtain ⟨h1, -⟩ := h
              subst h1
              simp [ih pr.1 pr.2 (by rw [hg])]

/-- An operator outside the `query.py` dispatch chain raises the
unsupported-operator error. -/
theorem emitQ_unknown (col op : String) (v : PyVal)
    (h : supportedOpsQ.contains op = false) :
    emitQ col op v = .error ("Unsupported filter operator: " ++ op) := by
  have hnot : op ∉ supportedOpsQ := by simpa using h
  simp only [supportedOpsQ, List.mem_cons, List.not_mem_nil, or_false,
    not_or] at hnot
  obtain ⟨h1, h2, h3, h4, h5, h6, h7, h8, h9, h10, h11, h12, h13, h14, h15,
    h16, h17⟩ := hnot
  unfold emitQ
  simp [h1, h2, h3, h4, h5, h6, h7, h8, h9, h10, h11, h12, h13, h14, h15,
    h16, h17]

/-- An operator outside the Oracle dispatch chain raises the
unsupported-operator error. -/
theorem emitT_unknown (c : Nat) (col op : String) (v : PyVal)
    (h : supportedOpsT.contains op = false) :
    emitT c col op v = .error ("Unsupported filter operator: " ++ op) := by
  have hnot : op ∉ supportedOpsT := by simpa using h
  simp only [supportedOpsT, List.mem_cons, List.not_mem_nil, or_false,
    not_or] at hnot
  obtain ⟨h1, h2, h3, h4, h5, h6, h7, h8, h9, h10, h11, h12, h13, h14, h15,
    h16, h17, h18, h19, h20, h21, h22⟩ := hnot
  unfold emitT
  simp [h1, h2, h3, h4, h5, h6, h7, h8, h9, h10, h11, h12, h13, h14, h15,
    h16, h17, h18, h19, h20, h21, h22]

/-- An operator outside the Postgres dispatch chain (including `not_like`
and `not_ilike`, which only the Oracle chain supports) raises the
unsupported-operator error. -/
theorem emitP_unknown (col op : String) (v : PyVal)
    (h : supportedOpsP.contains op = false) :
    emitP col op v = .error ("Unsupported filter operator: " ++ op) := by
  have hnot : op ∉ supportedOpsP := by simpa using h
  simp only [supportedOpsP, List.mem_cons, List.not_mem_nil, or_false,
    not_or] at hnot
  obtain ⟨h1, h2, h3, h4, h5, h6, h7, h8, h9, h10, h11, h12, h13, h14, h15,
    h16, h17, h18, h19, h20⟩ := hnot
  unfold emitP
  simp [h1, h2, h3, h4, h5, h6, h7, h8, h9, h10, h11, h12, h13, h14, h15,
    h16, h17, h18, h19, h20]

/-- A value the sniffers treat as bare derives the default equality
operator under the transaction-style sniffing. -/
theorem sniffT_bare (v : PyVal) (h : IsBareVal v) : sniffT v = ("=", v) := by
  obtain ⟨hlist, hmap⟩ := h
  cases v with
  | plist xs =>
      match xs with
      | [] => rfl
      | [a] => rfl
      | [a, b] => exact absurd rfl (hlist a b)
      | a :: b :: c :: t => rfl
  | pmap kvs =>
      show (match pyGet kvs "op" with
        | some ov => (pyLower (pyStr ov), (pyGet kvs "value").getD .pnone)
        | none => ("=", PyVal.pmap kvs)) = ("=", PyVal.pmap kvs)
      rw [hmap kvs rfl]
  | pint n => rfl
  | pstr s => rfl
  | pdate y m d => rfl
  | pdatetime y m d hh mi ss => rfl
  | pnone => rfl

/-- A value that is not an op-mapping derives the default equality operator
under the `query.py` sniffing (two-element sequences included). -/
theorem sniffQ_bare (v : PyVal)
    (h : ∀ kvs, v = .pmap kvs → pyGet kvs "op" = none) :
    sniffQ v = ("eq", v) := by
  cases v with
  | pmap kvs =>
      show (match pyGet kvs "op" with
        | some ov => (pyLower (pyStr ov), (pyGet kvs "value").getD .pnone)
        | none => ("eq", PyVal.pmap kvs)) = ("eq", PyVal.pmap kvs)
      rw [h kvs rfl]
  | pint n => rfl
  | pstr s => rfl
  | plist xs => rfl
  | pdate y m d => rfl
  | pdatetime y m d hh mi ss => rfl
  | pnone => rfl

/-- C4 counterexample: the claim asserts a two-element sequence
`[op, value]` supplies the operator explicitly in every dialect
translator, but the `query.py` translator accepts such a filter and emits
an equality clause binding the whole sequence as the operand (only the
transaction translators sniff two-element sequences). -/
theorem claim_C4_counterexample :
    validateFiltersQ "contact"
      (some [("client_id", PyVal.plist [PyVal.pstr "gt", PyVal.pint 5])])
      none =
      .ok (" WHERE client_id = %s",
           [PyVal.plist [PyVal.pstr "gt", PyVal.pint 5]]) := rfl

/-- C4 (amended): in every dialect translator a bare value yields an
equality clause and a `{op, value}` mapping supplies the operator
explicitly; a two-element `[op, value]` sequence supplies the operator in
the transaction translators only — the `query.py` translator treats it as
a bare equality operand. One clause is emitted per entry, combined with
`AND` in insertion order; `in`/`not_in` require a non-empty sequence and
emit one placeholder per element; `between` requires exactly two operands
and emits two; `is_null`/`is_not_null` emit none; and an unknown column,
unknown operator, or empty/wrong-arity operand raises a validation
error. -/
theorem claim_C4 :
    (∀ (allowed : List String) (table k : String) (v : PyVal),
       allowed.contains k = true →
       (∀ kvs, v = .pmap kvs → pyGet kvs "op" = none) →
       translateEntryQ allowed table none k v = .ok (k ++ " = %s", [v])) ∧
    (∀ (allowed : List String) (table k op : String) (v : PyVal),
       allowed.contains k = true →
       translateEntryQ allowed table none k
           (.pmap [("op", .pstr op), ("value", v)]) =
         emitQ k (pyLower op) v) ∧
    (∀ (col op : String) (v : PyVal),
       op ∈ ["eq", "=", "neq", "!=", "gt", "gte", "lt", "lte", "like",
         "not_like", "ilike", "not_ilike"] →
       ∃ clause, emitQ col op v = .ok (clause, [v])) ∧
    (∀ (col : String) (xs : List PyVal), xs ≠ [] →
       emitQ col "in" (.plist xs) =
         .ok (col ++ " " ++ "IN" ++ " (" ++
           String.intercalate ", " (List.replicate xs.length "%s") ++ ")",
           xs) ∧
       emitQ col "not_in" (.plist xs) =
         .ok (col ++ " " ++ "NOT IN" ++ " (" ++
           String.intercalate ", " (List.replicate xs.length "%s") ++ ")",
           xs)) ∧
    (∀ col : String,
       emitQ col "in" (.plist []) =
         .error "in operator requires a non-empty list" ∧
       emitQ col "not_in" (.plist []) =
         .error "not_in operator requires a non-empty list" ∧
       ∀ v : PyVal, (∀ xs, v ≠ .plist xs) →
         emitQ col "in" v = .error "in operator requires a non-empty list") ∧
    (∀ (col : String) (a b : PyVal),
       emitQ col "between" (.plist [a, b]) =
         .ok (col ++ " BETWEEN %s AND %s", [a, b])) ∧
    (∀ (col : String) (xs : List PyVal), xs.length ≠ 2 →
       emitQ col "between" (.plist xs) =
         .error "between operator requires a list of two values") ∧
    (∀ (col : String) (v : PyVal),
       emitQ col "is_null" v = .ok (col ++ " IS NULL", []) ∧
       emitQ col "is_not_null" v = .ok (col ++ " IS NOT NULL", [])) ∧
    (∀ (col op : String) (v : PyVal), supportedOpsQ.contains op = false →
       emitQ col op v = .error ("Unsupported filter operator: " ++ op)) ∧
    (∀ (allowed : List String) (table k : String) (v : PyVal),
       allowed.contains k = false →
       translateEntryQ allowed table none k v =
         .error ("Invalid filter column for " ++ table ++ ": " ++ k)) ∧
    (∀ (table tname : String) (allowed : List String)
       (alias? : Option String) (fs : Filters) (w : String)
       (ps : List PyVal),
       TABLES table = some (tname, allowed) → fs ≠ [] →
       validateFiltersQ table (some fs) alias? = .ok (w, ps) →
       ∃ cs, goQ allowed table alias? fs = .ok (cs, ps) ∧
         cs.length = fs.length ∧
         w = " WHERE " ++ String.intercalate " AND " cs) ∧
    (∀ (table : String) (c : Nat) (k : String) (v : PyVal),
       (allowedColsT table).contains (normalizeIdentifier k) = true →
       IsBareVal v →
       translateEntryT table c k v =
         .ok (normalizeIdentifier k ++ " = :" ++ bindName c,
           [(bindName c, convertToDate v)], c + 1)) ∧
    (∀ (table : String) (c : Nat) (k op : String) (v : PyVal),
       translateEntryT table c k (.plist [.pstr op, v]) =
         translateEntryT table c k
           (.pmap [("op", .pstr op), ("value", v)])) ∧
    (∀ (table : String) (c : Nat) (k op : String) (v : PyVal),
       (allowedColsT table).contains (normalizeIdentifier k) = true →
       translateEntryT table c k (.plist [.pstr op, v]) =
         emitT c (normalizeIdentifier k) (pyLower op) v) ∧
    (∀ (c : Nat) (col : String) (xs : List PyVal), xs ≠ [] →
       (∃ clause ps, emitT c col "in" (.plist xs) =
          .ok (clause, ps, c + xs.length) ∧ ps.length = xs.length) ∧
       (∃ clause ps, emitT c col "not_in" (.plist xs) =
          .ok (clause, ps, c + xs.length) ∧ ps.length = xs.length)) ∧
    (∀ (c : Nat) (col : String),
       emitT c col "in" (.plist []) =
         .error "in operator requires a non-empty list" ∧
       ∀ v : PyVal, (∀ xs, v ≠ .plist xs) →
         emitT c col "in" v =
           .error "in operator requires a non-empty list") ∧
    (∀ (c : Nat) (col : String) (a b : PyVal),
       ∃ clause ps, emitT c col "between" (.plist [a, b]) =
         .ok (clause, ps, c + 2) ∧ ps.length = 2) ∧
    (∀ (c : Nat) (col : String) (xs : List PyVal), xs.length ≠ 2 →
       emitT c col "between" (.plist xs) =
         .error "between operator requires a list of two values") ∧
    (∀ (c : Nat) (col : String) (v : PyVal),
       emitT c col "is_null" v = .ok (col ++ " IS NULL", [], c) ∧
       emitT c col "is_not_null" v = .ok (col ++ " IS NOT NULL", [], c)) ∧
    (∀ (c : Nat) (col op : String) (v : PyVal),
       supportedOpsT.contains op = false →
       emitT c col op v = .error ("Unsupported filter operator: " ++ op)) ∧
    (∀ (table : String) (c : Nat) (k : String) (v : PyVal),
       (allowedColsT table).contains (normalizeIdentifier k) = false →
       translateEntryT table c k v =
         .error ("Invalid filter column for " ++ table ++ ": " ++
           normalizeIdentifier k)) ∧
    (∀ (table : String) (fs : Filters) (w : String)
       (ps : List (String × PyVal)),
       fs ≠ [] → validateFiltersT (some fs) table = .ok (w, ps) →
       ∃ cs, goT table 1 fs = .ok (cs, ps) ∧ cs.length = fs.length ∧
         w = " WHERE " ++ String.intercalate " AND " cs) ∧
    (∀ (table k : String) (v : PyVal),
       (allowedColsP table).contains (pyLower (pyStrip k)) = true →
       IsBareVal v →
       translateEntryP table k v =
         .ok (pyLower (pyStrip k) ++ " = %s", [v])) ∧
    (∀ (table k op : String) (v : PyVal),
       translateEntryP table k (.plist [.pstr op, v]) =
         translateEntryP table k (.pmap [("op", .pstr op), ("value", v)])) ∧
    (∀ (table k op : String) (v : PyVal),
       (allowedColsP table).contains (pyLower (pyStrip k)) = true →
       translateEntryP table k (.plist [.pstr op, v]) =
         emitP (pyLower (pyStrip k)) (pyLower op) v) ∧
    (∀ (col op : String) (v : PyVal),
       op ∈ ["eq", "=", "neq", "!=", "<>", "gt", ">", "gte", ">=", "lt",
         "<", "lte", "<=", "like", "ilike"] →
       ∃ clause, emitP col op v = .ok (clause, [v])) ∧
    (∀ (col : String) (xs : List PyVal), xs ≠ [] →
       emitP col "in" (.plist xs) =
         .ok (col ++ " " ++ "IN" ++ " (" ++
           String.intercalate ", " (List.replicate xs.length "%s") ++ ")",
           xs)) ∧
    (∀ col : String,
       emitP col "in" (.plist []) =
         .error "in operator requires a non-empty list" ∧
       ∀ v : PyVal, (∀ xs, v ≠ .plist xs) →
         emitP col "in" v = .error "in operator requires a non-empty list") ∧
    (∀ (col : String) (a b : PyVal),
       emitP col "between" (.plist [a, b]) =
         .ok (col ++ " BETWEEN %s AND %s", [a, b])) ∧
    (∀ (col : String) (v : PyVal),
       emitP col "is_null" v = .ok (col ++ " IS NULL", []) ∧
       emitP col "is_not_null" v = .ok (col ++ " IS NOT NULL", [])) ∧
    (∀ (col op : String) (v : PyVal), supportedOpsP.contains op = false →
       emitP col op v = .error ("Unsupported filter operator: " ++ op)) ∧
    (∀ (table k : String) (v : PyVal),
       (allowedColsP table).contains (pyLower (pyStrip k)) = false →
       translateEntryP table k v =
         .error ("Invalid filter column for " ++ table ++ ": " ++
           pyLower (pyStrip k))) ∧
    (∀ (table : String) (fs : Filters) (w : String) (ps : List PyVal),
       fs ≠ [] → validateFiltersPostgres (some fs) table = .ok (w, ps) →
       ∃ cs, goP table fs = .ok (cs, ps) ∧ cs.length = fs.length ∧
         w = " WHERE " ++ String.intercalate " AND " cs) := by
  refine ⟨?_, ?_, ?_, ?_, ?_, ?_, ?_, ?_, ?_, ?_, ?_, ?_, ?_, ?_, ?_, ?_,
    ?_, ?_, ?_, ?_, ?_, ?_, ?_, ?_, ?_, ?_, ?_, ?_, ?_, ?_, ?_, ?_, ?_⟩
  · intro allowed table k v hc hbare
    unfold translateEntryQ
    rw [hc]
    simp only [Bool.not_true, sniffQ_bare v hbare]
    rfl
  · intro allowed table k op v hc
    unfold translateEntryQ
    rw [hc]
    rfl
  · intro col op v hop
    fin_cases hop <;> exact ⟨_, rfl⟩
  · intro col xs hxs
    cases xs with
    | nil => exact absurd rfl hxs
    | cons a t => exact ⟨rfl, rfl⟩
  · intro col
    refine ⟨rfl, rfl, ?_⟩
    intro v hv
    cases v with
    | plist xs => exact absurd rfl (hv xs)
    | pint n => rfl
    | pstr s => rfl
    | pmap kvs => rfl
    | pdate y m d => rfl
    | pdatetime y m d hh mi ss => rfl
    | pnone => rfl
  · intro col a b
    rfl
  · intro col xs hxs
    match xs with
    | [] => rfl
    | [a] => rfl
    | [a, b] => exact absurd rfl hxs
    | a :: b :: c :: t => rfl
  · intro col v
    exact ⟨rfl, rfl⟩
  · exact fun col op v h => emitQ_unknown col op v h
  · intro allowed table k v hc
    unfold translateEntryQ
    rw [hc]
    rfl
  · intro table tname allowed alias? fs w ps ht hne h
    unfold validateFiltersQ at h
    simp only [] at h
    rw [if_neg (by rw [List.isEmpty_iff]; exact hne)] at h
    simp only [bind, Except.bind] at h
    unfold getTable at h
    rw [ht] at h
    simp only [] at h
    cases hg : goQ allowed table alias? fs with
    | error e => rw [hg] at h; exact Except.noConfusion h
    | ok pr =>
        obtain ⟨cs0, ps0⟩ := pr
        rw [hg] at h
        simp only [Except.ok.injEq, Prod.mk.injEq] at h
        obtain ⟨hw, hps⟩ := h
        subst hps
        exact ⟨cs0, rfl, goQ_length allowed table alias? fs cs0 ps0 hg,
          hw.symm⟩
  · intro table c k v hc hbare
    unfold translateEntryT
    show (if (!(allowedColsT table).contains (normalizeIdentifier k)) = true
        then Except.error ("Invalid filter column for " ++ table ++ ": " ++
          normalizeIdentifier k)
        else match sniffT v with
          | (op, operand) => emitT c (normalizeIdentifier k) op operand) = _
    rw [hc, sniffT_bare v hbare]
    rfl
  · intro table c k op v
    rfl
  · intro table c k op v hc
    unfold translateEntryT
    show (if (!(allowedColsT table).contains (normalizeIdentifier k)) = true
        then Except.error ("Invalid filter column for " ++ table ++ ": " ++
          normalizeIdentifier k)
        else match sniffT (PyVal.plist [PyVal.pstr op, v]) with
          | (o, operand) => emitT c (normalizeIdentifier k) o operand) = _
    rw [hc]
    rfl
  · intro c col xs hxs
    cases xs with
    | nil => exact absurd rfl hxs
    | cons a t =>
        exact ⟨⟨_, _, rfl, by simp [List.length_zip]⟩,
          ⟨_, _, rfl, by simp [List.length_zip]⟩⟩
  · intro c col
    refine ⟨rfl, ?_⟩
    intro v hv
    cases v with
    | plist xs => exact absurd rfl (hv xs)
    | pint n => rfl
    | pstr s => rfl
    | pmap kvs => rfl
    | pdate y m d => rfl
    | pdatetime y m d hh mi ss => rfl
    | pnone => rfl
  · intro c col a b
    exact ⟨_, _, rfl, rfl⟩
  · intro c col xs hxs
    match xs with
    | [] => rfl
    | [a] => rfl
    | [a, b] => exact absurd rfl hxs
    | a :: b :: c' :: t => rfl
  · intro c col v
    exact ⟨rfl, rfl⟩
  · exact fun c col op v h => emitT_unknown c col op v h
  · intro table c k v hc
    unfold translateEntryT
    show (if (!(allowedColsT table).contains (normalizeIdentifier k)) = true
        then Except.error ("Invalid filter column for " ++ table ++ ": " ++
          normalizeIdentifier k)
        else match sniffT v with
          | (op, operand) => emitT c (normalizeIdentifier k) op operand) = _
    rw [hc]
    rfl
  · intro table fs w ps hne h
    unfold validateFiltersT at h
    simp only [] at h
    rw [if_neg (by rw [List.isEmpty_iff]; exact hne)] at h
    simp only [bind, Except.bind] at h
    cases hg : goT table 1 fs with
    | error e => rw [hg] at h; exact Except.noConfusion h
    | ok pr =>
        obtain ⟨cs0, ps0⟩ := pr
        rw [hg] at h
        simp only [Except.ok.injEq, Prod.mk.injEq] at h
        obtain ⟨hw, hps⟩ := h
        subst hps
        exact ⟨cs0, rfl, goT_length table fs 1 cs0 ps0 hg, hw.symm⟩
  · intro table k v hc hbare
    unfold translateEntryP
    show (if (!(allowedColsP table).contains (pyLower (pyStrip k))) = true
        then Except.error ("Invalid filter column for " ++ table ++ ": " ++
          pyLower (pyStrip k))
        else match sniffT v with
          | (op, operand) => emitP (pyLower (pyStrip k)) op operand) = _
    rw [hc, sniffT_bare v hbare]
    rfl
  · intro table k op v
    rfl
  · intro table k op v hc
    unfold translateEntryP
    show (if (!(allowedColsP table).contains (pyLower (pyStrip k))) = true
        then Except.error ("Invalid filter column for " ++ table ++ ": " ++
          pyLower (pyStrip k))
        else match sniffT (PyVal.plist [PyVal.pstr op, v]) with
          | (o, operand) => emitP (pyLower (pyStrip k)) o operand) = _
    rw [hc]
    rfl
  · intro col op v hop
    fin_cases hop <;> exact ⟨_, rfl⟩
  · intro col xs hxs
    cases xs with
    | nil => exact absurd rfl hxs
    | cons a t => rfl
  · intro col
    refine ⟨rfl, ?_⟩
    intro v hv
    cases v with
    | plist xs => exact absurd rfl (hv xs)
    | pint n => rfl
    | pstr s => rfl
    | pmap kvs => rfl
    | pdate y m d => rfl
    | pdatetime y m d hh mi ss => rfl
    | pnone => rfl
  · intro col a b
    rfl
  · intro col v
    exact ⟨rfl, rfl⟩
  · exact fun col op v h => emitP_unknown col op v h
  · intro table k v hc
    unfold translateEntryP
    show (if (!(allowedColsP table).contains (pyLower (pyStrip k))) = true
        then Except.error ("Invalid filter column for " ++ table ++ ": " ++
          pyLower (pyStrip k))
        else match sniffT v with
          | (op, operand) => emitP (pyLower (pyStrip k)) op operand) = _
    rw [hc]
    rfl
  · intro table fs w ps hne h
    unfold validateFiltersPostgres at h
    simp only [] at h
    rw [if_neg (by rw [List.isEmpty_iff]; exact hne)] at h
    simp only [bind, Except.bind] at h
    cases hg : goP table fs with
    | error e => rw [hg] at h; exact Except.noConfusion h
    | ok pr =>
        obtain ⟨cs0, ps0⟩ := pr
        rw [hg] at h
        simp only [Except.ok.injEq, Prod.mk.injEq] at h
        obtain ⟨hw, hps⟩ := h
        subst hps
        exact ⟨cs0, rfl, goP_length table fs cs0 ps0 hg, hw.symm⟩

/-- Witness for C4: a bare value translating to an equality clause, a
one-element `in` filter emitting exactly one placeholder, and a one-entry
Oracle translation producing one AND-joined clause. -/
theorem claim_C4_witness :
    translateEntryQ CONTACT_COLUMNS "contact" none "account"
        (PyVal.pstr "A1") = .ok ("account" ++ " = %s", [PyVal.pstr "A1"]) ∧
    emitQ "account" "in" (PyVal.plist [PyVal.pint 1]) =
      .ok ("account" ++ " " ++ "IN" ++ " (" ++
        String.intercalate ", "
          (List.replicate (List.length [PyVal.pint 1]) "%s") ++ ")",
        [PyVal.pint 1]) ∧
    ∃ cs, goT "transaction" 1 [("ACCOUNT", PyVal.pstr "A")] =
        .ok (cs, [("p1", PyVal.pstr "A")]) ∧
      cs.length = List.length [("ACCOUNT", PyVal.pstr "A")] ∧
      " WHERE ACCOUNT = :p1" = " WHERE " ++ String.intercalate " AND " cs := by
  refine ⟨?_, ?_, ?_⟩
  · exact claim_C4.1 CONTACT_COLUMNS "contact" "account" (PyVal.pstr "A1")
      (by rfl) (fun kvs h => PyVal.noConfusion h)
  · exact (claim_C4.2.2.2.1 "account" [PyVal.pint 1] (by simp)).1
  · exact claim_C4.2.2.2.2.2.2.2.2.2.2.2.2.2.2.2.2.2.2.2.2.2.1
      "transaction" [("ACCOUNT", PyVal.pstr "A")] " WHERE ACCOUNT = :p1"
      [("p1", PyVal.pstr "A")] (by simp) rfl

/-- The SQL fragment emitted by the `query.py` dispatch chain depends only
on the operand's collection shape, never on its values. -/
theorem emitQ_sql_lockstep (col op : String) (v1 v2 : PyVal)
    (h : operandShape v1 = operandShape v2) :
    Except.map Prod.fst (emitQ col op v1) =
      Except.map Prod.fst (emitQ col op v2) := by
  unfold emitQ
  by_cases hc1 : (op = "eq" || op = "=") = true
  · simp only [if_pos hc1]
    rfl
  · simp only [if_neg hc1]
    by_cases hc2 : (op = "neq" || op = "!=") = true
    · simp only [if_pos hc2]
      rfl
    · simp only [if_neg hc2]
      by_cases hc3 : op = "gt"
      · simp only [if_pos hc3]
        rfl
      · simp only [if_neg hc3]
        by_cases hc4 : op = "gte"
        · simp only [if_pos hc4]
          rfl
        · simp only [if_neg hc4]
          by_cases hc5 : op = "lt"
          · simp only [if_pos hc5]
            rfl
          · simp only [if_neg hc5]
            by_cases hc6 : op = "lte"
            · simp only [if_pos hc6]
              rfl
            · simp only [if_neg hc6]
              by_cases hc7 : op = "like"
              · simp only [if_pos hc7]
                rfl
              · simp only [if_neg hc7]
                by_cases hc8 : op = "not_like"
                · simp only [if_pos hc8]
                  rfl
                · simp only [if_neg hc8]
                  by_cases hc9 : op = "ilike"
                  · simp only [if_pos hc9]
                    rfl
                  · simp only [if_neg hc9]
                    by_cases hc10 : op = "not_ilike"
                    · simp only [if_pos hc10]
                      rfl
                    · simp only [if_neg hc10]
                      by_cases hc11 : (op = "in" || op = "not_in") = true
                      · simp only [if_pos hc11]
                        cases v1 <;> cases v2 <;>
                          first
                          | rfl
                          | (simp [operandShape] at h; done)
                          | (rename_i xs1 xs2
                             have hlen : xs1.length = xs2.length := by
                               simpa [operandShape] using h
                             by_cases he : xs1.isEmpty = true
                             · have he2 : xs2.isEmpty = true := by
                                 rw [List.isEmpty_iff] at he ⊢
                                 rw [he] at hlen
                                 exact List.length_eq_zero.mp hlen.symm
                               simp only [if_pos he, if_pos he2]
                               try rfl
                             · have he2 : ¬xs2.isEmpty = true := by
                                 rw [List.isEmpty_iff] at he ⊢
                                 intro h2
                                 rw [h2] at hlen
                                 exact he (List.length_eq_zero.mp hlen)
                               simp only [if_neg he, if_neg he2]
                               rw [hlen]
                               try rfl)
                      · simp only [if_neg hc11]
                        by_cases hc12 : op = "between"
                        · simp only [if_pos hc12]
                          cases v1 <;> cases v2 <;>
                            first
                            | rfl
                            | (simp [operandShape] at h; done)
                            | (rename_i xs1 xs2
                               have hlen : xs1.length = xs2.length := by
                                 simpa [operandShape] using h
                               revert hlen
                               match xs1, xs2 with
                               | [], [] => intro _; rfl
                               | [], _ :: _ => intro hlen; exact absurd hlen (by simp)
                               | _ :: _, [] => intro hlen; exact absurd hlen (by simp)
                               | [_], [_] => intro _; rfl
                               | [_], _ :: _ :: _ => intro hlen; exact absurd hlen (by simp)
                               | _ :: _ :: _, [_] => intro hlen; exact absurd hlen (by simp)
                               | [_, _], [_, _] => intro _; rfl
                               | [_, _], _ :: _ :: _ :: _ => intro hlen; exact absurd hlen (by simp)
                               | _ :: _ :: _ :: _, [_, _] => intro hlen; exact absurd hlen (by simp)
                               | _ :: _ :: _ :: _, _ :: _ :: _ :: _ => intro _; rfl)
                        · simp only [if_neg hc12]

/-- The clause and counter produced by the Oracle dispatch chain depend
only on the operand's collection shape, never on its values. -/
theorem emitT_sql_lockstep (c : Nat) (col op : String) (v1 v2 : PyVal)
    (h : operandShape v1 = operandShape v2) :
    Except.map (fun r => (r.1, r.2.2)) (emitT c col op v1) =
      Except.map (fun r => (r.1, r.2.2)) (emitT c col op v2) := by
  unfold emitT
  by_cases hc1 : (op = "eq" || op = "=") = true
  · simp only [if_pos hc1]
    rfl
  · simp only [if_neg hc1]
    by_cases hc2 : (op = "neq" || op = "!=" || op = "<>") = true
    · simp only [if_pos hc2]
      rfl
    · simp only [if_neg hc2]
      by_cases hc3 : (op = "gt" || op = ">") = true
      · simp only [if_pos hc3]
        rfl
      · simp only [if_neg hc3]
        by_cases hc4 : (op = "gte" || op = ">=") = true
        · simp only [if_pos hc4]
          rfl
        · simp only [if_neg hc4]
          by_cases hc5 : (op = "lt" || op = "<") = true
          · simp only [if_pos hc5]
            rfl
          · simp only [if_neg hc5]
            by_cases hc6 : (op = "lte" || op = "<=") = true
            · simp only [if_pos hc6]
              rfl
            · simp only [if_neg hc6]
              by_cases hc7 : op = "like"
              · simp only [if_pos hc7]
                rfl
              · simp only [if_neg hc7]
                by_cases hc8 : op = "not_like"
                · simp only [if_pos hc8]
                  rfl
                · simp only [if_neg hc8]
                  by_cases hc9 : op = "ilike"
                  · simp only [if_pos hc9]
                    rfl
                  · simp only [if_neg hc9]
                    by_cases hc10 : op = "not_ilike"
                    · simp only [if_pos hc10]
                      rfl
                    · simp only [if_neg hc10]
                      by_cases hc11 : (op = "in" || op = "not_in") = true
                      · simp only [if_pos hc11]
                        cases v1 <;> cases v2 <;>
                          first
                          | rfl
                          | (simp [operandShape] at h; done)
                          | (rename_i xs1 xs2
                             have hlen : xs1.length = xs2.length := by
                               simpa [operandShape] using h
                             by_cases he : xs1.isEmpty = true
                             · have he2 : xs2.isEmpty = true := by
                                 rw [List.isEmpty_iff] at he ⊢
                                 rw [he] at hlen
                                 exact List.length_eq_zero.mp hlen.symm
                               simp only [if_pos he, if_pos he2]
                               try rfl
                             · have he2 : ¬xs2.isEmpty = true := by
                                 rw [List.isEmpty_iff] at he ⊢
                                 intro h2
                                 rw [h2] at hlen
                                 exact he (List.length_eq_zero.mp hlen)
                               simp only [if_neg he, if_neg he2]
                               rw [hlen]
                               try rfl)
                      · simp only [if_neg hc11]
                        by_cases hc12 : op = "between"
                        · simp only [if_pos hc12]
                          cases v1 <;> cases v2 <;>
                            first
                            | rfl
                            | (simp [operandShape] at h; done)
                            | (rename_i xs1 xs2
                               have hlen : xs1.length = xs2.length := by
                                 simpa [operandShape] using h
                               revert hlen
                               match xs1, xs2 with
                               | [], [] => intro _; rfl
                               | [], _ :: _ => intro hlen; exact absurd hlen (by simp)
                               | _ :: _, [] => intro hlen; exact absurd hlen (by simp)
                               | [_], [_] => intro _; rfl
                               | [_], _ :: _ :: _ => intro hlen; exact absurd hlen (by simp)
                               | _ :: _ :: _, [_] => intro hlen; exact absurd hlen (by simp)
                               | [_, _], [_, _] => intro _; rfl
                               | [_, _], _ :: _ :: _ :: _ => intro hlen; exact absurd hlen (by simp)
                               | _ :: _ :: _ :: _, [_, _] => intro hlen; exact absurd hlen (by simp)
                               | _ :: _ :: _ :: _, _ :: _ :: _ :: _ => intro _; rfl)
                        · simp only [if_neg hc12]

/-- The SQL fragment emitted by the Postgres dispatch chain depends only
on the operand's collection shape, never on its values. -/
theorem emitP_sql_lockstep (col op : String) (v1 v2 : PyVal)
    (h : operandShape v1 = operandShape v2) :
    Except.map Prod.fst (emitP col op v1) =
      Except.map Prod.fst (emitP col op v2) := by
  unfold emitP
  by_cases hc1 : (op = "eq" || op = "=") = true
  · simp only [if_pos hc1]
    rfl
  · simp only [if_neg hc1]
    by_cases hc2 : (op = "neq" || op = "!=" || op = "<>") = true
    · simp only [if_pos hc2]
      rfl
    · simp only [if_neg hc2]
      by_cases hc3 : (op = "gt" || op = ">") = true
      · simp only [if_pos hc3]
        rfl
      · simp only [if_neg hc3]
        by_cases hc4 : (op = "gte" || op = ">=") = true
        · simp only [if_pos hc4]
          rfl
        · simp only [if_neg hc4]
          by_cases hc5 : (op = "lt" || op = "<") = true
          · simp only [if_pos hc5]
            rfl
          · simp only [if_neg hc5]
            by_cases hc6 : (op = "lte" || op = "<=") = true
            · simp only [if_pos hc6]
              rfl
            · simp only [if_neg hc6]
              by_cases hc7 : op = "like"
              · simp only [if_pos hc7]
                rfl
              · simp only [if_neg hc7]
                by_cases hc8 : op = "ilike"
                · simp only [if_pos hc8]
                  rfl
                · simp only [if_neg hc8]
                  by_cases hc9 : (op = "in" || op = "not_in") = true
                  · simp only [if_pos hc9]
                    cases v1 <;> cases v2 <;>
                      first
                      | rfl
                      | (simp [operandShape] at h; done)
                      | (rename_i xs1 xs2
                         have hlen : xs1.length = xs2.length := by
                           simpa [operandShape] using h
                         by_cases he : xs1.isEmpty = true
                         · have he2 : xs2.isEmpty = true := by
                             rw [List.isEmpty_iff] at he ⊢
                             rw [he] at hlen
                             exact List.length_eq_zero.mp hlen.symm
                           simp only [if_pos he, if_pos he2]
                           try rfl
                         · have he2 : ¬xs2.isEmpty = true := by
                             rw [List.isEmpty_iff] at he ⊢
                             intro h2
                             rw [h2] at hlen
                             exact he (List.length_eq_zero.mp hlen)
                           simp only [if_neg he, if_neg he2]
                           rw [hlen]
                           try rfl)
                  · simp only [if_neg hc9]
                    by_cases hc10 : op = "between"
                    · simp only [if_pos hc10]
                      cases v1 <;> cases v2 <;>
                        first
                        | rfl
                        | (simp [operandShape] at h; done)
                        | (rename_i xs1 xs2
                           have hlen : xs1.length = xs2.length := by
                             simpa [operandShape] using h
                           revert hlen
                           match xs1, xs2 with
                           | [], [] => intro _; rfl
                           | [], _ :: _ => intro hlen; exact absurd hlen (by simp)
                           | _ :: _, [] => intro hlen; exact absurd hlen (by simp)
                           | [_], [_] => intro _; rfl
                           | [_], _ :: _ :: _ => intro hlen; exact absurd hlen (by simp)
                           | _ :: _ :: _, [_] => intro hlen; exact absurd hlen (by simp)
                           | [_, _], [_, _] => intro _; rfl
                           | [_, _], _ :: _ :: _ :: _ => intro hlen; exact absurd hlen (by simp)
                           | _ :: _ :: _ :: _, [_, _] => intro hlen; exact absurd hlen (by simp)
                           | _ :: _ :: _ :: _, _ :: _ :: _ :: _ => intro _; rfl)
                    · simp only [if_neg hc10]

/-- One `query.py` loop iteration: the emitted clause depends only on the
filter value's shape. -/
theorem translateEntryQ_sql_lockstep (allowed : List String) (table : String)
    (ta : Option String) (k : String) (v1 v2 : PyVal)
    (h : shapeQ v1 = shapeQ v2) :
    Except.map Prod.fst (translateEntryQ allowed table ta k v1) =
      Except.map Prod.fst (translateEntryQ allowed table ta k v2) := by
  have hop0 := congrArg Prod.fst h
  have hsh0 := congrArg Prod.snd h
  have hop : (sniffQ v1).1 = (sniffQ v2).1 := hop0
  have hsh : operandShape (sniffQ v1).2 = operandShape (sniffQ v2).2 := hsh0
  unfold translateEntryQ
  show Except.map Prod.fst
      (if (!allowed.contains k) = true then
        Except.error ("Invalid filter column for " ++ table ++ ": " ++ k)
      else emitQ (match ta with | some a => a ++ "." ++ k | none => k)
        (sniffQ v1).1 (sniffQ v1).2) =
    Except.map Prod.fst
      (if (!allowed.contains k) = true then
        Except.error ("Invalid filter column for " ++ table ++ ": " ++ k)
      else emitQ (match ta with | some a => a ++ "." ++ k | none => k)
        (sniffQ v2).1 (sniffQ v2).2)
  by_cases hk : (!allowed.contains k) = true
  · rw [if_pos hk, if_pos hk]
  · rw [if_neg hk, if_neg hk, hop]
    exact emitQ_sql_lockstep _ _ _ _ hsh

/-- One Oracle `transaction.py` loop iteration: the emitted clause and the
updated counter depend only on the filter value's shape. -/
theorem translateEntryT_sql_lockstep (table : String) (c : Nat) (k : String)
    (v1 v2 : PyVal) (h : shapeT v1 = shapeT v2) :
    Except.map (fun r => (r.1, r.2.2)) (translateEntryT table c k v1) =
      Except.map (fun r => (r.1, r.2.2)) (translateEntryT table c k v2) := by
  have hop0 := congrArg Prod.fst h
  have hsh0 := congrArg Prod.snd h
  have hop : (sniffT v1).1 = (sniffT v2).1 := hop0
  have hsh : operandShape (sniffT v1).2 = operandShape (sniffT v2).2 := hsh0
  unfold translateEntryT
  show Except.map (fun r => (r.1, r.2.2))
      (if (!(allowedColsT table).contains (normalizeIdentifier k)) = true then
        Except.error ("Invalid filter column for " ++ table ++ ": " ++
          normalizeIdentifier k)
      else emitT c (normalizeIdentifier k) (sniffT v1).1 (sniffT v1).2) =
    Except.map (fun r => (r.1, r.2.2))
      (if (!(allowedColsT table).contains (normalizeIdentifier k)) = true then
        Except.error ("Invalid filter column for " ++ table ++ ": " ++
          normalizeIdentifier k)
      else emitT c (normalizeIdentifier k) (sniffT v2).1 (sniffT v2).2)
  by_cases hk : (!(allowedColsT table).contains (normalizeIdentifier k)) = true
  · rw [if_pos hk, if_pos hk]
  · rw [if_neg hk, if_neg hk, hop]
    exact emitT_sql_lockstep _ _ _ _ _ hsh

/-- One Postgres `transaction.py` loop iteration: the emitted clause depends
only on the filter value's shape. -/
theorem translateEntryP_sql_lockstep (table : String) (k : String)
    (v1 v2 : PyVal) (h : shapeT v1 = shapeT v2) :
    Except.map Prod.fst (translateEntryP table k v1) =
      Except.map Prod.fst (translateEntryP table k v2) := by
  have hop0 := congrArg Prod.fst h
  have hsh0 := congrArg Prod.snd h
  have hop : (sniffT v1).1 = (sniffT v2).1 := hop0
  have hsh : operandShape (sniffT v1).2 = operandShape (sniffT v2).2 := hsh0
  unfold translateEntryP
  show Except.map Prod.fst
      (if (!(allowedColsP table).contains (pyLower (pyStrip k))) = true then
        Except.error ("Invalid filter column for " ++ table ++ ": " ++
          pyLower (pyStrip k))
      else emitP (pyLower (pyStrip k)) (sniffT v1).1 (sniffT v1).2) =
    Except.map Prod.fst
      (if (!(allowedColsP table).contains (pyLower (pyStrip k))) = true then
        Except.error ("Invalid filter column for " ++ table ++ ": " ++
          pyLower (pyStrip k))
      else emitP (pyLower (pyStrip k)) (sniffT v2).1 (sniffT v2).2)
  by_cases hk : (!(allowedColsP table).contains (pyLower (pyStrip k))) = true
  · rw [if_pos hk, if_pos hk]
  · rw [if_neg hk, if_neg hk, hop]
    exact emitP_sql_lockstep _ _ _ _ hsh

/-- The `query.py` filter loop: the clause list depends only on the keys and
the value shapes. -/
theorem goQ_sql_lockstep (allowed : List String) (table : String)
    (ta : Option String) (fs1 fs2 : Filters) (h : ShapeEqQ fs1 fs2) :
    Except.map Prod.fst (goQ allowed table ta fs1) =
      Except.map Prod.fst (goQ allowed table ta fs2) := by
  induction h with
  | nil => rfl
  | cons hab htail ih =>
      rename_i a b l1 l2
      obtain ⟨k1, w1⟩ := a
      obtain ⟨k2, w2⟩ := b
      have hk : k1 = k2 := hab.1
      have hv : shapeQ w1 = shapeQ w2 := hab.2
      subst hk
      unfold goQ
      simp only [bind, Except.bind]
      have h2 := translateEntryQ_sql_lockstep allowed table ta k1 w1 w2 hv
      cases h1 : translateEntryQ allowed table ta k1 w1 with
      | error e =>
          rw [h1] at h2
          cases h1' : translateEntryQ allowed table ta k1 w2 with
          | error e' =>
              rw [h1'] at h2
              simp only [Except.map] at h2
              injection h2 with he
              subst he
              rfl
          | ok q =>
              rw [h1'] at h2
              simp only [Except.map] at h2
              exact Except.noConfusion h2
      | ok p =>
          obtain ⟨cl1, ps1⟩ := p
          rw [h1] at h2
          cases h1' : translateEntryQ allowed table ta k1 w2 with
          | error e' =>
              rw [h1'] at h2
              simp only [Except.map] at h2
              exact Except.noConfusion h2
          | ok q =>
              obtain ⟨cl2, ps2⟩ := q
              rw [h1'] at h2
              simp only [Except.map, Except.ok.injEq] at h2
              have hcl : cl1 = cl2 := h2
              subst hcl
              simp only []
              cases hg : goQ allowed table ta l1 with
              | error eg =>
                  rw [hg] at ih
                  cases hg' : goQ allowed table ta l2 with
                  | error eg' =>
                      rw [hg'] at ih
                      simp only [Except.map] at ih
                      injection ih with he
                      subst he
                      rfl
                  | ok r2 =>
                      rw [hg'] at ih
                      simp only [Except.map] at ih
                      exact Except.noConfusion ih
              | ok r1 =>
                  rw [hg] at ih
                  cases hg' : goQ allowed table ta l2 with
                  | error eg' =>
                      rw [hg'] at ih
                      simp only [Except.map] at ih
                      exact Except.noConfusion ih
                  | ok r2 =>
                      obtain ⟨cls1, prms1⟩ := r1
                      obtain ⟨cls2, prms2⟩ := r2
                      rw [hg'] at ih
                      simp only [Except.map, Except.ok.injEq] at ih
                      have hcls : cls1 = cls2 := ih
                      subst hcls
                      rfl

/-- The Oracle `transaction.py` filter loop: the clause list depends only on
the keys and the value shapes, at every starting counter. -/
theorem goT_sql_lockstep (table : String) (fs1 fs2 : Filters)
    (h : ShapeEqT fs1 fs2) :
    ∀ c : Nat, Except.map Prod.fst (goT table c fs1) =
      Except.map Prod.fst (goT table c fs2) := by
  induction h with
  | nil => intro c; rfl
  | cons hab htail ih =>
      rename_i a b l1 l2
      intro c
      obtain ⟨k1, w1⟩ := a
      obtain ⟨k2, w2⟩ := b
      have hk : k1 = k2 := hab.1
      have hv : shapeT w1 = shapeT w2 := hab.2
      subst hk
      unfold goT
      simp only [bind, Except.bind]
      have h2 := translateEntryT_sql_lockstep table c k1 w1 w2 hv
      cases h1 : translateEntryT table c k1 w1 with
      | error e =>
          rw [h1] at h2
          cases h1' : translateEntryT table c k1 w2 with
          | error e' =>
              rw [h1'] at h2
              simp only [Except.map] at h2
              injection h2 with he
              subst he
              rfl
          | ok q =>
              rw [h1'] at h2
              simp only [Except.map] at h2
              exact Except.noConfusion h2
      | ok p =>
          obtain ⟨cl1, ps1, c1'⟩ := p
          rw [h1] at h2
          cases h1' : translateEntryT table c k1 w2 with
          | error e' =>
              rw [h1'] at h2
              simp only [Except.map] at h2
              exact Except.noConfusion h2
          | ok q =>
              obtain ⟨cl2, ps2, c2'⟩ := q
              rw [h1'] at h2
              simp only [Except.map, Except.ok.injEq, Prod.mk.injEq] at h2
              obtain ⟨hcl, hc'⟩ := h2
              subst hcl
              subst hc'
              simp only []
              have ih' := ih c1'
              cases hg : goT table c1' l1 with
              | error eg =>
                  rw [hg] at ih'
                  cases hg' : goT table c1' l2 with
                  | error eg' =>
                      rw [hg'] at ih'
                      simp only [Except.map] at ih'
                      injection ih' with he
                      subst he
                      rfl
                  | ok r2 =>
                      rw [hg'] at ih'
                      simp only [Except.map] at ih'
                      exact Except.noConfusion ih'
              | ok r1 =>
                  rw [hg] at ih'
                  cases hg' : goT table c1' l2 with
                  | error eg' =>
                      rw [hg'] at ih'
                      simp only [Except.map] at ih'
                      exact Except.noConfusion ih'
                  | ok r2 =>
                      obtain ⟨cls1, prms1⟩ := r1
                      obtain ⟨cls2, prms2⟩ := r2
                      rw [hg'] at ih'
                      simp only [Except.map, Except.ok.injEq] at ih'
                      have hcls : cls1 = cls2 := ih'
                      subst hcls
                      rfl

/-- The Postgres `transaction.py` filter loop: the clause list depends only
on the keys and the value shapes. -/
theorem goP_sql_lockstep (table : String) (fs1 fs2 : Filters)
    (h : ShapeEqT fs1 fs2) :
    Except.map Prod.fst (goP table fs1) =
      Except.map Prod.fst (goP table fs2) := by
  induction h with
  | nil => rfl
  | cons hab htail ih =>
      rename_i a b l1 l2
      obtain ⟨k1, w1⟩ := a
      obtain ⟨k2, w2⟩ := b
      have hk : k1 = k2 := hab.1
      have hv : shapeT w1 = shapeT w2 := hab.2
      subst hk
      unfold goP
      simp only [bind, Except.bind]
      have h2 := translateEntryP_sql_lockstep table k1 w1 w2 hv
      cases h1 : translateEntryP table k1 w1 with
      | error e =>
          rw [h1] at h2
          cases h1' : translateEntryP table k1 w2 with
          | error e' =>
              rw [h1'] at h2
              simp only [Except.map] at h2
              injection h2 with he
              subst he
              rfl
          | ok q =>
              rw [h1'] at h2
              simp only [Except.map] at h2
              exact Except.noConfusion h2
      | ok p =>
          obtain ⟨cl1, ps1⟩ := p
          rw [h1] at h2
          cases h1' : translateEntryP table k1 w2 with
          | error e' =>
              rw [h1'] at h2
              simp only [Except.map] at h2
              exact Except.noConfusion h2
          | ok q =>
              obtain ⟨cl2, ps2⟩ := q
              rw [h1'] at h2
              simp only [Except.map, Except.ok.injEq] at h2
              have hcl : cl1 = cl2 := h2
              subst hcl
              simp only []
              cases hg : goP table l1 with
              | error eg =>
                  rw [hg] at ih
                  cases hg' : goP table l2 with
                  | error eg' =>
                      rw [hg'] at ih
                      simp only [Except.map] at ih
                      injection ih with he
                      subst he
                      rfl
                  | ok r2 =>
                      rw [hg'] at ih
                      simp only [Except.map] at ih
                      exact Except.noConfusion ih
              | ok r1 =>
                  rw [hg] at ih
                  cases hg' : goP table l2 with
                  | error eg' =>
                      rw [hg'] at ih
                      simp only [Except.map] at ih
                      exact Except.noConfusion ih
                  | ok r2 =>
                      obtain ⟨cls1, prms1⟩ := r1
                      obtain ⟨cls2, prms2⟩ := r2
                      rw [hg'] at ih
                      simp only [Except.map, Except.ok.injEq] at ih
                      have hcls : cls1 = cls2 := ih
                      subst hcls
                      rfl

/-- `query._validate_filters`: the WHERE fragment depends only on the keys
and the value shapes. -/
theorem validateFiltersQ_sql_lockstep (table : String) (ta : Option String)
    (fs1 fs2 : Filters) (h : ShapeEqQ fs1 fs2) :
    Except.map Prod.fst (validateFiltersQ table (some fs1) ta) =
      Except.map Prod.fst (validateFiltersQ table (some fs2) ta) := by
  have hlen : fs1.length = fs2.length := List.Forall₂.length_eq h
  unfold validateFiltersQ
  simp only []
  by_cases he : fs1.isEmpty = true
  · have he2 : fs2.isEmpty = true := by
      rw [List.isEmpty_iff] at he ⊢
      rw [he] at hlen
      exact List.length_eq_zero.mp hlen.symm
    rw [if_pos he, if_pos he2]
  · have he2 : ¬fs2.isEmpty = true := by
      rw [List.isEmpty_iff] at he ⊢
      intro h2
      rw [h2] at hlen
      exact he (List.length_eq_zero.mp hlen)
    rw [if_neg he, if_neg he2]
    simp only [bind, Except.bind]
    cases hgt : getTable table with
    | error e => rfl
    | ok tinfo =>
        obtain ⟨tname, allowed⟩ := tinfo
        simp only []
        have hg := goQ_sql_lockstep allowed table ta fs1 fs2 h
        cases h1 : goQ allowed table ta fs1 with
        | error e =>
            rw [h1] at hg
            cases h1' : goQ allowed table ta fs2 with
            | error e' =>
                rw [h1'] at hg
                simp only [Except.map] at hg
                injection hg with he'
                subst he'
                rfl
            | ok r2 =>
                rw [h1'] at hg
                simp only [Except.map] at hg
                exact Except.noConfusion hg
        | ok r1 =>
            rw [h1] at hg
            cases h1' : goQ allowed table ta fs2 with
            | error e' =>
                rw [h1'] at hg
                simp only [Except.map] at hg
                exact Except.noConfusion hg
            | ok r2 =>
                obtain ⟨cls1, prms1⟩ := r1
                obtain ⟨cls2, prms2⟩ := r2
                rw [h1'] at hg
                simp only [Except.map, Except.ok.injEq] at hg
                have hcls : cls1 = cls2 := hg
                subst hcls
                rfl

/-- The Oracle `transaction._validate_filters`: the WHERE fragment depends
only on the keys and the value shapes. -/
theorem validateFiltersT_sql_lockstep (table : String)
    (fs1 fs2 : Filters) (h : ShapeEqT fs1 fs2) :
    Except.map Prod.fst (validateFiltersT (some fs1) table) =
      Except.map Prod.fst (validateFiltersT (some fs2) table) := by
  have hlen : fs1.length = fs2.length := List.Forall₂.length_eq h
  unfold validateFiltersT
  simp only []
  by_cases he : fs1.isEmpty = true
  · have he2 : fs2.isEmpty = true := by
      rw [List.isEmpty_iff] at he ⊢
      rw [he] at hlen
      exact List.length_eq_zero.mp hlen.symm
    rw [if_pos he, if_pos he2]
  · have he2 : ¬fs2.isEmpty = true := by
      rw [List.isEmpty_iff] at he ⊢
      intro h2
      rw [h2] at hlen
      exact he (List.length_eq_zero.mp hlen)
    rw [if_neg he, if_neg he2]
    simp only [bind, Except.bind]
    have hg := goT_sql_lockstep table fs1 fs2 h 1
    cases h1 : goT table 1 fs1 with
    | error e =>
        rw [h1] at hg
        cases h1' : goT table 1 fs2 with
        | error e' =>
            rw [h1'] at hg
            simp only [Except.map] at hg
            injection hg with he'
            subst he'
            rfl
        | ok r2 =>
            rw [h1'] at hg
            simp only [Except.map] at hg
            exact Except.noConfusion hg
    | ok r1 =>
        rw [h1] at hg
        cases h1' : goT table 1 fs2 with
        | error e' =>
            rw [h1'] at hg
            simp only [Except.map] at hg
            exact Except.noConfusion hg
        | ok r2 =>
            obtain ⟨cls1, prms1⟩ := r1
            obtain ⟨cls2, prms2⟩ := r2
            rw [h1'] at hg
            simp only [Except.map, Except.ok.injEq] at hg
            have hcls : cls1 = cls2 := hg
            subst hcls
            rfl

/-- `transaction._validate_filters_postgres`: the WHERE fragment depends
only on the keys and the value shapes. -/
theorem validateFiltersPostgres_sql_lockstep (table : String)
    (fs1 fs2 : Filters) (h : ShapeEqT fs1 fs2) :
    Except.map Prod.fst (validateFiltersPostgres (some fs1) table) =
      Except.map Prod.fst (validateFiltersPostgres (some fs2) table) := by
  have hlen : fs1.length = fs2.length := List.Forall₂.length_eq h
  unfold validateFiltersPostgres
  simp only []
  by_cases he : fs1.isEmpty = true
  · have he2 : fs2.isEmpty = true := by
      rw [List.isEmpty_iff] at he ⊢
      rw [he] at hlen
      exact List.length_eq_zero.mp hlen.symm
    rw [if_pos he, if_pos he2]
  · have he2 : ¬fs2.isEmpty = true := by
      rw [List.isEmpty_iff] at he ⊢
      intro h2
      rw [h2] at hlen
      exact he (List.length_eq_zero.mp hlen)
    rw [if_neg he, if_neg he2]
    simp only [bind, Except.bind]
    have hg := goP_sql_lockstep table fs1 fs2 h
    cases h1 : goP table fs1 with
    | error e =>
        rw [h1] at hg
        cases h1' : goP table fs2 with
        | error e' =>
            rw [h1'] at hg
            simp only [Except.map] at hg
            injection hg with he'
            subst he'
            rfl
        | ok r2 =>
            rw [h1'] at hg
            simp only [Except.map] at hg
            exact Except.noConfusion hg
    | ok r1 =>
        rw [h1] at hg
        cases h1' : goP table fs2 with
        | error e' =>
            rw [h1'] at hg
            simp only [Except.map] at hg
            exact Except.noConfusion hg
        | ok r2 =>
            obtain ⟨cls1, prms1⟩ := r1
            obtain ⟨cls2, prms2⟩ := r2
            rw [h1'] at hg
            simp only [Except.map, Except.ok.injEq] at hg
            have hcls : cls1 = cls2 := hg
            subst hcls
            rfl

/-- Mapping a projection through a bind whose two continuations agree under
the projection. -/
theorem map_bind_proj {A B C : Type} (E : Except String A)
    (f g : A → Except String B) (proj : B → C)
    (hfg : ∀ s, Except.map proj (f s) = Except.map proj (g s)) :
    Except.map proj (E >>= f) = Except.map proj (E >>= g) := by
  cases E with
  | error e => rfl
  | ok s => exact hfg s

/-- Mapping a projection through two binds whose scrutinees agree on their
first components and whose continuations agree under the projection on
first-component-equal inputs. -/
theorem map_bind_lockstep {A B C D : Type} (E1 E2 : Except String (A × B))
    (f g : A × B → Except String C) (proj : C → D)
    (hE : Except.map Prod.fst E1 = Except.map Prod.fst E2)
    (hfg : ∀ w1 w2, w1.1 = w2.1 ->
      Except.map proj (f w1) = Except.map proj (g w2)) :
    Except.map proj (E1 >>= f) = Except.map proj (E2 >>= g) := by
  cases E1 with
  | error e =>
      cases E2 with
      | error e' =>
          simp only [Except.map] at hE
          injection hE with he
          subst he
          rfl
      | ok w2 =>
          simp only [Except.map] at hE
          exact Except.noConfusion hE
  | ok w1 =>
      cases E2 with
      | error e' =>
          simp only [Except.map] at hE
          exact Except.noConfusion hE
      | ok w2 =>
          simp only [Except.map, Except.ok.injEq] at hE
          exact hfg w1 w2 hE

/-- `build_select`: the SQL text depends only on the filter shapes. -/
theorem build_select_sql_lockstep (table : String)
    (cols : Option (List String)) (lim off : Int) (ob : Option String)
    (fs1 fs2 : Filters) (h : ShapeEqQ fs1 fs2) :
    Except.map BuiltQuery.sql (build_select table (some fs1) cols lim off ob) =
      Except.map BuiltQuery.sql
        (build_select table (some fs2) cols lim off ob) := by
  unfold build_select
  by_cases ht : (TABLES table).isNone = true
  · rw [if_pos ht, if_pos ht]
  · rw [if_neg ht, if_neg ht]
    dsimp only
    refine map_bind_proj _ _ _ _ ?_
    intro tinfo
    obtain ⟨tname, allowed⟩ := tinfo
    dsimp only
    refine map_bind_proj _ _ _ _ ?_
    intro selectCols
    dsimp only
    refine map_bind_lockstep _ _ _ _ _
      (validateFiltersQ_sql_lockstep table none fs1 fs2 h) ?_
    intro w1 w2 hw
    obtain ⟨ws1, ps1⟩ := w1
    obtain ⟨ws2, ps2⟩ := w2
    have hws : ws1 = ws2 := hw
    subst hws
    dsimp only
    refine map_bind_proj _ _ _ _ ?_
    intro os
    rfl

/-- `build_count`: the SQL text depends only on the filter shapes. -/
theorem build_count_sql_lockstep (table : String) (fs1 fs2 : Filters)
    (h : ShapeEqQ fs1 fs2) :
    Except.map BuiltQuery.sql (build_count table (some fs1)) =
      Except.map BuiltQuery.sql (build_count table (some fs2)) := by
  unfold build_count
  by_cases ht : (TABLES table).isNone = true
  · rw [if_pos ht, if_pos ht]
  · rw [if_neg ht, if_neg ht]
    dsimp only
    refine map_bind_proj _ _ _ _ ?_
    intro tinfo
    obtain ⟨tname, allowed⟩ := tinfo
    dsimp only
    refine map_bind_lockstep _ _ _ _ _
      (validateFiltersQ_sql_lockstep table none fs1 fs2 h) ?_
    intro w1 w2 hw
    obtain ⟨ws1, ps1⟩ := w1
    obtain ⟨ws2, ps2⟩ := w2
    have hws : ws1 = ws2 := hw
    subst hws
    rfl

/-- `build_contact_with_details_select`: the SQL text depends only on the
filter shapes. -/
theorem build_contact_with_details_select_sql_lockstep
    (ccols dcols : Option (List String)) (lim off : Int) (ob : Option String)
    (cf1 cf2 df1 df2 : Filters) (hc : ShapeEqQ cf1 cf2)
    (hd : ShapeEqQ df1 df2) :
    Except.map BuiltQuery.sql
        (build_contact_with_details_select (some cf1) (some df1) ccols dcols
          lim off ob) =
      Except.map BuiltQuery.sql
        (build_contact_with_details_select (some cf2) (some df2) ccols dcols
          lim off ob) := by
  unfold build_contact_with_details_select
  dsimp only
  refine map_bind_proj _ _ _ _ ?_
  intro ccols0
  dsimp only
  refine map_bind_proj _ _ _ _ ?_
  intro dcols0
  dsimp only
  refine map_bind_lockstep _ _ _ _ _
    (validateFiltersQ_sql_lockstep "contact" (some "c") cf1 cf2 hc) ?_
  intro w1 w2 hw
  obtain ⟨ws1, ps1⟩ := w1
  obtain ⟨ws2, ps2⟩ := w2
  have hws : ws1 = ws2 := hw
  subst hws
  dsimp only
  refine map_bind_lockstep _ _ _ _ _
    (validateFiltersQ_sql_lockstep "contact_details" (some "d") df1 df2 hd) ?_
  intro u1 u2 hu
  obtain ⟨us1, qs1⟩ := u1
  obtain ⟨us2, qs2⟩ := u2
  have hus : us1 = us2 := hu
  subst hus
  cases ob with
  | none => rfl
  | some obs =>
      dsimp only
      split
      · rfl
      · split
        · rfl
        · split
          · rfl
          · split
            · rfl
            · rfl

/-- `build_transaction_union` (Oracle): the SQL text depends only on the
filter shapes. -/
theorem build_transaction_union_sql_lockstep (tns : List String)
    (cols : Option (List String)) (lim : Int) (ob : Option String)
    (fs1 fs2 : Filters) (h : ShapeEqT fs1 fs2) :
    Except.map OracleQuery.sql
        (build_transaction_union tns (some fs1) cols lim ob) =
      Except.map OracleQuery.sql
        (build_transaction_union tns (some fs2) cols lim ob) := by
  unfold build_transaction_union
  by_cases ht : tns.isEmpty = true
  · rw [if_pos ht, if_pos ht]
  · rw [if_neg ht, if_neg ht]
    dsimp only
    refine map_bind_proj _ _ _ _ ?_
    intro selectCols
    dsimp only
    refine map_bind_lockstep _ _ _ _ _
      (validateFiltersT_sql_lockstep "transaction" fs1 fs2 h) ?_
    intro w1 w2 hw
    obtain ⟨ws1, ps1⟩ := w1
    obtain ⟨ws2, ps2⟩ := w2
    have hws : ws1 = ws2 := hw
    subst hws
    dsimp only
    refine map_bind_proj _ _ _ _ ?_
    intro os
    rfl

/-- `build_postgres_transaction_union`: the SQL text depends only on the
filter shapes. -/
theorem build_postgres_transaction_union_sql_lockstep (tns : List String)
    (cols : Option (List String)) (lim : Int) (ob : Option String)
    (fs1 fs2 : Filters) (h : ShapeEqT fs1 fs2) :
    Except.map PostgresQuery.sql
        (build_postgres_transaction_union tns (some fs1) cols lim ob) =
      Except.map PostgresQuery.sql
        (build_postgres_transaction_union tns (some fs2) cols lim ob) := by
  unfold build_postgres_transaction_union
  by_cases ht : tns.isEmpty = true
  · rw [if_pos ht, if_pos ht]
  · rw [if_neg ht, if_neg ht]
    dsimp only
    refine map_bind_lockstep _ _ _ _ _
      (validateFiltersPostgres_sql_lockstep "transaction" fs1 fs2 h) ?_
    intro w1 w2 hw
    obtain ⟨ws1, ps1⟩ := w1
    obtain ⟨ws2, ps2⟩ := w2
    have hws : ws1 = ws2 := hw
    subst hws
    dsimp only
    refine map_bind_proj _ _ _ _ ?_
    intro os
    rfl

/-- C10: For every two filter mappings with the same keys in the same order,
the same derived operators, and operand collections of the same sizes (and
identical table, columns, limit, offset, and order-by arguments), each query
builder - single-table select, count, joined contact/details select, Oracle
transaction union, Postgres transaction union - produces byte-identical SQL
text: filter operand values influence only the emitted parameter list or
named-parameter map, never the SQL string. -/
theorem claim_C10 :
    (∀ (table : String) (cols : Option (List String)) (lim off : Int)
        (ob : Option String) (fs1 fs2 : Filters), ShapeEqQ fs1 fs2 →
      Except.map BuiltQuery.sql
          (build_select table (some fs1) cols lim off ob) =
        Except.map BuiltQuery.sql
          (build_select table (some fs2) cols lim off ob)) ∧
    (∀ (table : String) (fs1 fs2 : Filters), ShapeEqQ fs1 fs2 →
      Except.map BuiltQuery.sql (build_count table (some fs1)) =
        Except.map BuiltQuery.sql (build_count table (some fs2))) ∧
    (∀ (ccols dcols : Option (List String)) (lim off : Int)
        (ob : Option String) (cf1 cf2 df1 df2 : Filters),
      ShapeEqQ cf1 cf2 → ShapeEqQ df1 df2 →
      Except.map BuiltQuery.sql
          (build_contact_with_details_select (some cf1) (some df1) ccols
            dcols lim off ob) =
        Except.map BuiltQuery.sql
          (build_contact_with_details_select (some cf2) (some df2) ccols
            dcols lim off ob)) ∧
    (∀ (tns : List String) (cols : Option (List String)) (lim : Int)
        (ob : Option String) (fs1 fs2 : Filters), ShapeEqT fs1 fs2 →
      Except.map OracleQuery.sql
          (build_transaction_union tns (some fs1) cols lim ob) =
        Except.map OracleQuery.sql
          (build_transaction_union tns (some fs2) cols lim ob)) ∧
    (∀ (tns : List String) (cols : Option (List String)) (lim : Int)
        (ob : Option String) (fs1 fs2 : Filters), ShapeEqT fs1 fs2 →
      Except.map PostgresQuery.sql
          (build_postgres_transaction_union tns (some fs1) cols lim ob) =
        Except.map PostgresQuery.sql
          (build_postgres_transaction_union tns (some fs2) cols lim ob)) :=
  ⟨fun table cols lim off ob fs1 fs2 h =>
      build_select_sql_lockstep table cols lim off ob fs1 fs2 h,
   fun table fs1 fs2 h => build_count_sql_lockstep table fs1 fs2 h,
   fun ccols dcols lim off ob cf1 cf2 df1 df2 hc hd =>
      build_contact_with_details_select_sql_lockstep ccols dcols lim off ob
        cf1 cf2 df1 df2 hc hd,
   fun tns cols lim ob fs1 fs2 h =>
      build_transaction_union_sql_lockstep tns cols lim ob fs1 fs2 h,
   fun tns cols lim ob fs1 fs2 h =>
      build_postgres_transaction_union_sql_lockstep tns cols lim ob fs1 fs2 h⟩

/-- Concrete instantiation of the SQL-text independence: changing the
filtered value (and the members of an `in` list, keeping its length) never
changes the generated SQL. -/
theorem claim_C10_witness :
    ShapeEqQ [("first_name", PyVal.pstr "ALICE")]
        [("first_name", PyVal.pstr "BOB")] ∧
    ShapeEqT [("account", PyVal.pmap [("op", PyVal.pstr "in"),
          ("value", PyVal.plist [PyVal.pint 1, PyVal.pint 2])])]
        [("account", PyVal.pmap [("op", PyVal.pstr "in"),
          ("value", PyVal.plist [PyVal.pint 7, PyVal.pint 9])])] ∧
    Except.map BuiltQuery.sql
        (build_select "contact"
          (some [("first_name", PyVal.pstr "ALICE")]) none 100 0 none) =
      Except.map BuiltQuery.sql
        (build_select "contact"
          (some [("first_name", PyVal.pstr "BOB")]) none 100 0 none) ∧
    Except.map OracleQuery.sql
        (build_transaction_union ["LVOUSR.TRANSACTION@D"]
          (some [("account", PyVal.pmap [("op", PyVal.pstr "in"),
            ("value", PyVal.plist [PyVal.pint 1, PyVal.pint 2])])])
          none 100 none) =
      Except.map OracleQuery.sql
        (build_transaction_union ["LVOUSR.TRANSACTION@D"]
          (some [("account", PyVal.pmap [("op", PyVal.pstr "in"),
            ("value", PyVal.plist [PyVal.pint 7, PyVal.pint 9])])])
          none 100 none) :=
  have hq : ShapeEqQ [("first_name", PyVal.pstr "ALICE")]
      [("first_name", PyVal.pstr "BOB")] :=
    List.Forall₂.cons ⟨rfl, rfl⟩ List.Forall₂.nil
  have ht : ShapeEqT [("account", PyVal.pmap [("op", PyVal.pstr "in"),
        ("value", PyVal.plist [PyVal.pint 1, PyVal.pint 2])])]
      [("account", PyVal.pmap [("op", PyVal.pstr "in"),
        ("value", PyVal.plist [PyVal.pint 7, PyVal.pint 9])])] :=
    List.Forall₂.cons ⟨rfl, by decide⟩ List.Forall₂.nil
  ⟨hq, ht,
   claim_C10.1 "contact" none 100 0 none _ _ hq,
   claim_C10.2.2.2.1 ["LVOUSR.TRANSACTION@D"] none 100 none _ _ ht⟩

end ContactMcp
